import Mathlib

/-!
Shallow embedding of the LinusBUX virtual-currency backend.

The source consists of Firebase `onCall` cloud functions operating on a
Realtime-Database tree.  We embed the tree as a `Store` of function-valued
maps, JavaScript numbers as exact rationals (`ℚ`), and each cloud function as
a pure Lean function from a store and its request arguments to a result plus
the updated store.  Firebase primitives are modelled as follows:

* `ref.transaction(fn)` — an atomic read-modify-write on one key.  The
  promise resolves with the committed flag and a snapshot of the data at the
  location after the transaction (the post-transaction value, per the
  Firebase contract and the abstract store contract, which returns the new
  value).
* `ref.set(v)` / `ref.remove()` — plain single-key writes.
* `ServerValue.increment(d)` — an atomic add of `d`, treating an absent
  value as `0`.
* `update(ref(db), updates)` — a single atomic multi-location write.

Randomness (`Math.random()`), generated code strings (`uuidv4`,
`Math.random().toString(36)`) and server timestamps are passed in as
explicit arguments, since the cloud functions use them as opaque inputs.
Request fields that arrive as arbitrary JSON are modelled with `Option`:
`none` stands for a missing field (whose `Number(...)` conversion is `NaN`).
Authentication is out of scope: every embedded call takes the verified
caller uid directly, matching a request that passed the `context.auth`
check.
-/

namespace LinusBUX

/-- Result of an onCall cloud function: either a success payload or a thrown
HttpsError carrying an error code and a human-readable message. -/
inductive CallResult (α : Type) where
  | ok (val : α)
  | err (code : String) (msg : String)
  deriving Repr, DecidableEq

/-- JavaScript `Number.isInteger` on an exact rational. -/
def jsIsInteger (q : ℚ) : Bool := q.den = 1

/-- ASCII model of `String.prototype.toUpperCase` on one character: maps
the lowercase letters to uppercase and leaves everything else unchanged
(the generated codes are ASCII). -/
def jsCharToUpper (c : Char) : Char :=
  if 97 ≤ c.toNat ∧ c.toNat ≤ 122 then Char.ofNat (c.toNat - 32) else c

/-- ASCII model of `String.prototype.toUpperCase`. -/
def jsToUpper (s : String) : String := ⟨s.data.map jsCharToUpper⟩

/-- Model of `String.prototype.trim`: strips whitespace from both ends. -/
def jsTrim (s : String) : String :=
  ⟨((s.data.dropWhile Char.isWhitespace).reverse.dropWhile Char.isWhitespace).reverse⟩

/-- The data stored at `/users/uid`.  Each child key is independently
present or absent (Firebase deletes a node once all children are gone, and a
write to `/users/uid/balance` alone creates a node holding only `balance`). -/
structure UserNode where
  email : Option String
  balance : Option ℚ
  createdAt : Option Nat
  deriving Repr, DecidableEq

/-- A node exists in the database iff it holds any data. -/
def UserNode.isPresent (n : UserNode) : Bool :=
  n.email.isSome || n.balance.isSome || n.createdAt.isSome

/-- The empty node: `snapshot.exists()` is false. -/
def UserNode.absent : UserNode := ⟨none, none, none⟩

/-- The data stored at `/redemptionCodes/code` by `createRedemptionCode`. -/
structure RedemptionCode where
  amount : ℚ
  createdBy : String
  createdAt : Nat
  deriving Repr, DecidableEq

/-- The data stored at `/gift_codes/code`.  `createGiftCode` writes a real
record holding `amount` and `creatorUid`; the `redeemGiftCode` transaction
can overwrite it with the self-redeem error-marker object. -/
inductive GiftCodeVal where
  | real (amount : ℚ) (creatorUid : String)
  | errMarker
  deriving Repr, DecidableEq

/-- A participant record under `/linusHub/bankHeist/players/uid`:
a status string and a payout. -/
structure HeistPlayer where
  status : String
  payout : ℚ
  deriving Repr, DecidableEq

/-- The Realtime-Database tree, restricted to the paths the embedded
functions touch. -/
structure Store where
  users : String → UserNode
  redemptionCodes : String → Option RedemptionCode
  giftCodes : String → Option GiftCodeVal
  blackjackSessions : String → Option Nat
  bankStatus : String
  heistPlayers : String → Option HeistPlayer

/-- Reads `/users/uid/balance`. -/
def Store.balanceOf (s : Store) (uid : String) : Option ℚ :=
  (s.users uid).balance

/-- Writes `/users/uid/balance` (other children of the node untouched). -/
def Store.setBalance (s : Store) (uid : String) (b : ℚ) : Store :=
  { s with users := fun u => if u = uid then { s.users u with balance := some b } else s.users u }

/-- The credit pattern `balance => (balance || 0) + w` /
`ServerValue.increment(w)`: an absent or zero balance is treated as `0`. -/
def Store.addBalance (s : Store) (uid : String) (w : ℚ) : Store :=
  s.setBalance uid ((s.balanceOf uid).getD 0 + w)

/-- Writes the full `/users/uid` node. -/
def Store.setUserNode (s : Store) (uid : String) (n : UserNode) : Store :=
  { s with users := fun u => if u = uid then n else s.users u }

/-- Writes or removes `/redemptionCodes/code`. -/
def Store.setRedemptionCode (s : Store) (code : String) (v : Option RedemptionCode) : Store :=
  { s with redemptionCodes := fun c => if c = code then v else s.redemptionCodes c }

/-- Writes or removes `/gift_codes/code`. -/
def Store.setGiftCode (s : Store) (code : String) (v : Option GiftCodeVal) : Store :=
  { s with giftCodes := fun c => if c = code then v else s.giftCodes c }

/-- The completely empty database, bank status `safe`. -/
def initState : Store :=
  { users := fun _ => UserNode.absent
    redemptionCodes := fun _ => none
    giftCodes := fun _ => none
    blackjackSessions := fun _ => none
    bankStatus := "safe"
    heistPlayers := fun _ => none }

/-- The fixed initial balance `INITIAL_BALANCE = 100`. -/
def INITIAL_BALANCE : ℚ := 100

/-- Embeds `newUserSetup` (functions/index.js lines 507-530): if the
`/users/uid` node exists the call returns a message and changes nothing,
otherwise it writes the full node with the initial balance. -/
def newUserSetup (s : Store) (uid : String) (email : Option String) (ts : Nat) :
    CallResult String × Store :=
  if (s.users uid).isPresent then
    (.ok "User profile already exists.", s)
  else
    (.ok "User profile created successfully.",
      s.setUserNode uid ⟨email, some INITIAL_BALANCE, some ts⟩)

/-- Store-write events, used to observe the order in which an operation
commits its mutations.  `debit` is a committed balance decrement on its own,
`codeWrite` the creation of a code record, `heistBatch` the single atomic
multi-location update of `startHeist` (which writes the bank status, the
debited balance and the player record together). -/
inductive Ev where
  | debit (uid : String) (amt : ℚ)
  | codeWrite (code : String)
  | heistBatch (uid : String) (amt : ℚ)
  deriving Repr, DecidableEq

/-- Whether the event writes a code record. -/
def Ev.isCodeWrite : Ev → Bool
  | .codeWrite _ => true
  | _ => false

/-- Whether the event commits a balance debit. -/
def Ev.isDebit : Ev → Bool
  | .debit _ _ => true
  | .heistBatch _ _ => true
  | _ => false

/-- Whether the event commits the bank-status transition. -/
def Ev.isStatusWrite : Ev → Bool
  | .heistBatch _ _ => true
  | _ => false

/-- The trace performs a balance debit strictly before some code-record
write. -/
def debitBeforeCodeWrite (t : List Ev) : Prop :=
  ∃ i j : Fin t.length, i.val < j.val ∧ (t.get i).isDebit ∧ (t.get j).isCodeWrite

instance (t : List Ev) : Decidable (debitBeforeCodeWrite t) := by
  unfold debitBeforeCodeWrite; infer_instance

/-- The trace commits the bank-status transition strictly before some
balance debit. -/
def statusBeforeDebit (t : List Ev) : Prop :=
  ∃ i j : Fin t.length, i.val < j.val ∧ (t.get i).isStatusWrite ∧ (t.get j).isDebit

instance (t : List Ev) : Decidable (statusBeforeDebit t) := by
  unfold statusBeforeDebit; infer_instance

/-- The eight wheel segment multipliers, in the order of the server-side
`segments` array (both wheel variants define the same order). -/
def wheelMultiplierList : List ℚ := [3, 0, 3/2, -1, 2, 1/3, 1, 0]

/-- The JavaScript draw `Math.floor(Math.random() * segments.length)` for a
given value `r` of `Math.random()`. -/
def wheelIndex (r : ℚ) : Nat := (⌊r * 8⌋).toNat

/-- The multiplier of the drawn segment, `segments[winningIndex]`. -/
def wheelMultiplier (r : ℚ) : ℚ := wheelMultiplierList.getD (wheelIndex r) 0

/-- The debit phase of `spinGambleWheel` (functions/index.js lines 544-551):
the balance transaction aborts when the balance is absent or below the bet,
otherwise it commits the decrement.  `none` models the aborted transaction
(`committed = false`). -/
def spinGambleWheelDebit (s : Store) (uid : String) (bet : ℚ) : Option Store :=
  match s.balanceOf uid with
  | none => none
  | some cur => if cur < bet then none else some (s.setBalance uid (cur - bet))

/-- The resolution phase of `spinGambleWheel` (functions/index.js lines
567-572): bankrupt overwrites the balance with `0`, a positive multiplier
credits `Math.floor(bet * multiplier)`, a zero multiplier writes nothing. -/
def spinGambleWheelResolve (s : Store) (uid : String) (bet m : ℚ) : Store :=
  if m = -1 then s.setBalance uid 0
  else if 0 < m then s.addBalance uid (⌊bet * m⌋ : ℤ)
  else s

/-- Embeds `spinGambleWheel` (functions/index.js lines 532-580).  `betInput`
is the request's `bet` field after `Number(...)` (`none` for missing or
non-numeric, i.e. `NaN`); `r` is the value of `Math.random()`.  On success
the result is the winning index. -/
def spinGambleWheel (s : Store) (uid : String) (betInput : Option ℚ) (r : ℚ) :
    CallResult Nat × Store :=
  match betInput with
  | none => (.err "invalid-argument" "Invalid bet amount.", s)
  | some bet =>
    if ¬ jsIsInteger bet ∨ bet ≤ 0 then (.err "invalid-argument" "Invalid bet amount.", s)
    else
      match spinGambleWheelDebit s uid bet with
      | none => (.err "aborted" "Insufficient balance to place bet.", s)
      | some s1 => (.ok (wheelIndex r), spinGambleWheelResolve s1 uid bet (wheelMultiplier r))

/-- Embeds `giftBux` (functions/index.js lines 582-616).  `recipientInput`
models `data.recipientUid` (`none` when missing or not a string) and
`amountInput` models `data.amount` when it is a JavaScript number (`none`
otherwise; a non-number fails the `isNaN`/`Number.isInteger` checks).  The
sender transaction aborts when `currentBalance >= amount` is false, which
includes an absent (`null`) balance; on commit the recipient is credited
with the `(currentBalance || 0) + amount` transaction. -/
def giftBux (s : Store) (senderUid : String) (recipientInput : Option String)
    (amountInput : Option ℚ) : CallResult Unit × Store :=
  match recipientInput with
  | none => (.err "invalid-argument" "Invalid recipient.", s)
  | some recipientUid =>
    if recipientUid = "" then (.err "invalid-argument" "Invalid recipient.", s)
    else match amountInput with
    | none => (.err "invalid-argument" "Invalid gift amount.", s)
    | some amount =>
      if ¬ jsIsInteger amount ∨ amount ≤ 0 then
        (.err "invalid-argument" "Invalid gift amount.", s)
      else if senderUid = recipientUid then
        (.err "invalid-argument" "You cannot gift to yourself.", s)
      else
        match s.balanceOf senderUid with
        | none => (.err "aborted" "Insufficient funds to send gift.", s)
        | some cur =>
          if cur < amount then (.err "aborted" "Insufficient funds to send gift.", s)
          else
            let s1 := s.setBalance senderUid (cur - amount)
            (.ok (), s1.addBalance recipientUid amount)

/-- Embeds `createRedemptionCode` (functions/index.js lines 618-644).
`code` is the generated `LBX-...` string from `uuidv4`, `ts` the server
timestamp.  The balance transaction aborts when the balance is absent or
below the amount; only after it commits is the code record written.  The
third component is the trace of committed writes. -/
def createRedemptionCode (s : Store) (uid : String) (amountInput : Option ℚ)
    (code : String) (ts : Nat) : CallResult String × Store × List Ev :=
  match amountInput with
  | none => (.err "invalid-argument" "Invalid code amount.", s, [])
  | some amount =>
    if ¬ jsIsInteger amount ∨ amount ≤ 0 then
      (.err "invalid-argument" "Invalid code amount.", s, [])
    else
      match s.balanceOf uid with
      | none => (.err "aborted" "Insufficient balance to create code.", s, [])
      | some cur =>
        if cur < amount then (.err "aborted" "Insufficient balance to create code.", s, [])
        else
          let s1 := s.setBalance uid (cur - amount)
          let s2 := s1.setRedemptionCode code (some ⟨amount, uid, ts⟩)
          (.ok code, s2, [.debit uid amount, .codeWrite code])

/-- Embeds `redeemCode` (functions/index.js lines 646-673): a plain read of
the code record, then a credit transaction on the caller's balance, then a
removal of the code — three separate store operations.  The read, the
credit and the removal are not combined into one atomic unit. -/
def redeemCode (s : Store) (uid : String) (codeInput : Option String) :
    CallResult ℚ × Store :=
  match codeInput with
  | none => (.err "invalid-argument" "Invalid code provided.", s)
  | some code =>
    if code = "" then (.err "invalid-argument" "Invalid code provided.", s)
    else
      match s.redemptionCodes code with
      | none => (.err "not-found" "This code is invalid or has already been used.", s)
      | some cd =>
        let s1 := s.addBalance uid cd.amount
        let s2 := s1.setRedemptionCode code none
        (.ok cd.amount, s2)

/-- A playing card as the blackjack handler returns it. -/
structure BJCard where
  rank : String
  suit : String
  deriving Repr, DecidableEq

/-- The game-state object the blackjack handler returns to the client. -/
structure BJView where
  playerHand : List BJCard
  dealerHand : List BJCard
  playerScore : Nat
  dealerScore : String
  status : String
  message : String
  canDoubleDown : Bool
  deriving Repr, DecidableEq

/-- The hard-coded object literal `initialGameState` built by
`playBlackjack` (functions/index.js lines 290-298): a fixed player hand of
ace of spades and ten of diamonds, a fixed dealer hand whose second card is
the masked placeholder. -/
def initialGameState : BJView :=
  { playerHand := [⟨"A", "♠"⟩, ⟨"10", "♦"⟩]
    dealerHand := [⟨"7", "♣"⟩, ⟨"?", "?"⟩]
    playerScore := 21
    dealerScore := "?"
    status := "in-progress"
    message := "Your turn! Hit or Stand?"
    canDoubleDown := true }

/-- Embeds `playBlackjack` (functions/index.js lines 258-302).  The bet
validation checks only `isNaN(betAmount) || betAmount <= 0` — there is no
`Number.isInteger` check.  After the debit transaction commits, the handler
returns the hard-coded `initialGameState`; no deck is built and nothing is
written to any session path. -/
def playBlackjack (s : Store) (uid : String) (action : Option String)
    (betInput : Option ℚ) : CallResult BJView × Store :=
  if action ≠ some "deal" then (.err "invalid-argument" "Invalid action.", s)
  else
    match betInput with
    | none => (.err "invalid-argument" "A valid bet is required to deal.", s)
    | some betAmount =>
      if betAmount ≤ 0 then (.err "invalid-argument" "A valid bet is required to deal.", s)
      else
        match s.balanceOf uid with
        | none => (.err "aborted" "Insufficient balance to place the bet.", s)
        | some cur =>
          if cur < betAmount then (.err "aborted" "Insufficient balance to place the bet.", s)
          else (.ok initialGameState, s.setBalance uid (cur - betAmount))

/-- Embeds `createGiftCode` (unnamed/part_000 lines 12-56).  `amountInput`
models `data.amount` when it is a JavaScript number (`none` otherwise; the
`Number.isInteger` check rejects anything else).  The handler reads the
balance with a plain `once`, rejects when the balance node is absent or
below the amount, then first writes the `/gift_codes` record and only
afterwards decrements the balance with `ServerValue.increment(-amount)`.
The third component is the trace of committed writes, in order. -/
def createGiftCode (s : Store) (uid : String) (amountInput : Option ℚ)
    (code : String) : CallResult String × Store × List Ev :=
  match amountInput with
  | none => (.err "invalid-argument" "A valid amount is required.", s, [])
  | some amount =>
    if ¬ jsIsInteger amount ∨ amount ≤ 0 then
      (.err "invalid-argument" "A valid amount is required.", s, [])
    else
      match s.balanceOf uid with
      | none => (.err "failed-precondition" "Insufficient balance.", s, [])
      | some cur =>
        if cur < amount then (.err "failed-precondition" "Insufficient balance.", s, [])
        else
          let s1 := s.setGiftCode code (some (.real amount uid))
          let s2 := s1.addBalance uid (-amount)
          (.ok code, s2, [.codeWrite code, .debit uid amount])

/-- Embeds `redeemGiftCode` (unnamed/part_000 lines 61-115).  The code
string is `data.code.trim().toUpperCase()` (empty when the field is
missing).  The transaction on the code record aborts when the record is
absent, overwrites it with the self-redeem error marker when the caller is
its creator, and deletes it otherwise.  The promise's `snapshot` is the
post-transaction value at the location, so after a committed deletion
`snapshot.val()` is `null`: the marker check is skipped and the subsequent
`redeemedData.amount` access raises a TypeError, which the surrounding
`catch` converts into the `internal` HttpsError — the code record is gone
but no balance is ever credited.  After a committed marker write the marker
check fires and throws `failed-precondition`. -/
def redeemGiftCode (s : Store) (uid : String) (codeInput : Option String) :
    CallResult ℚ × Store :=
  let code := jsToUpper (jsTrim (codeInput.getD ""))
  if code = "" then (.err "invalid-argument" "Please provide a code.", s)
  else
    match s.giftCodes code with
    | none => (.err "not-found" "Invalid or already used code.", s)
    | some (.real _ creatorUid) =>
      if creatorUid = uid then
        (.err "failed-precondition" "You cannot redeem your own code.",
          s.setGiftCode code (some .errMarker))
      else
        (.err "internal" "An unexpected error occurred.", s.setGiftCode code none)
    | some .errMarker =>
      (.err "internal" "An unexpected error occurred.", s.setGiftCode code none)

/-- The read-check-debit phase of `spinTheWheel` (unnamed/part_000 lines
133-144): a plain `once` read of the balance, the `currentBalance < bet`
check (an absent balance compares as `0`), then the non-transactional
`ServerValue.increment(-bet)` write.  Returns the observed `currentBalance`
alongside the updated store; `none` models the thrown
`failed-precondition`. -/
def spinTheWheelDebit (s : Store) (uid : String) (bet : ℚ) : Option (ℚ × Store) :=
  let currentBalance := (s.balanceOf uid).getD 0
  if currentBalance < bet then none
  else some (currentBalance, s.addBalance uid (-bet))

/-- The payout `spinTheWheel` computes for the drawn multiplier (unnamed/
part_000 lines 156-171): on bankrupt it is the negative of
`currentBalance - bet`, the balance the handler read before the debit minus
the bet; otherwise `Math.floor(bet * multiplier)`. -/
def spinTheWheelPayout (currentBalance bet m : ℚ) : ℚ :=
  if m = -1 then -(currentBalance - bet) else (⌊bet * m⌋ : ℤ)

/-- The resolution phase of `spinTheWheel` (unnamed/part_000 line 174): a
single `ServerValue.increment(payout)` on the balance. -/
def spinTheWheelResolve (s : Store) (uid : String) (currentBalance bet m : ℚ) : Store :=
  s.addBalance uid (spinTheWheelPayout currentBalance bet m)

/-- The outcome label `spinTheWheel` returns (unnamed/part_000 lines
160-171). -/
def spinTheWheelOutcome (bet m : ℚ) : String :=
  if m = -1 then "bankrupt"
  else if bet < (⌊bet * m⌋ : ℤ) then "win"
  else if (⌊bet * m⌋ : ℤ) = bet then "neutral"
  else "loss"

/-- Embeds `spinTheWheel` (unnamed/part_000 lines 120-187).  `betInput`
models `data.bet` when it is a JavaScript number; `r` is the value of
`Math.random()`.  On success the result is the outcome label. -/
def spinTheWheel (s : Store) (uid : String) (betInput : Option ℚ) (r : ℚ) :
    CallResult String × Store :=
  match betInput with
  | none => (.err "invalid-argument" "Invalid bet amount.", s)
  | some bet =>
    if ¬ jsIsInteger bet ∨ bet ≤ 0 then (.err "invalid-argument" "Invalid bet amount.", s)
    else
      match spinTheWheelDebit s uid bet with
      | none => (.err "failed-precondition" "Insufficient balance.", s)
      | some (currentBalance, s1) =>
        let m := wheelMultiplier r
        (.ok (spinTheWheelOutcome bet m), spinTheWheelResolve s1 uid currentBalance bet m)

/-- The fixed heist entry cost (unnamed/part_001 line 19). -/
def heistCost : ℚ := 100

/-- Embeds `startHeist` (unnamed/part_001 lines 5-49).  The function builds
one multi-location update writing the debited balance, the bank status
`in progress` and the player record, and commits it with a single atomic
`update` call; there is no separate debit step and no rollback step.
Whether the update commits is decided by the database security rules, which
are not part of the repository.  Modelled from the spec: the rules reject
the write (`permission_denied`, no state change) when a heist is already in
progress or the balance does not cover the fixed entry cost, and otherwise
let the whole batch commit, debiting exactly the entry cost.  The third
component is the trace of committed writes. -/
def startHeist (s : Store) (uid : String) : CallResult Unit × Store × List Ev :=
  match s.balanceOf uid with
  | none => (.err "permission-denied" "Heist could not be started.", s, [])
  | some cur =>
    if s.bankStatus ≠ "safe" ∨ cur < heistCost then
      (.err "permission-denied" "Heist could not be started.", s, [])
    else
      let s1 := s.setBalance uid (cur - heistCost)
      let s2 := { s1 with bankStatus := "in progress" }
      let s3 := { s2 with heistPlayers := fun u =>
                    if u = uid then some ⟨"playing", 0⟩ else s2.heistPlayers u }
      (.ok (), s3, [.heistBatch uid heistCost])

/-! Interleaving semantics for concurrent `redeemCode` calls.

The `redeemCode` handler performs three separate atomic store operations in
sequence: the `once` read of the code record, the balance-credit
transaction, and the `remove` of the code record.  Firebase serialises the
individual operations but nothing serialises the sequence, so two handler
invocations may interleave between them.  `RPhase` records how far one
invocation has progressed (with the read code amount as its local state)
and `redeemCodeStep` executes its next atomic operation. -/

/-- The control point of one in-flight `redeemCode` invocation. -/
inductive RPhase where
  | start
  | afterRead (amt : ℚ)
  | afterCredit (amt : ℚ)
  | done (res : CallResult ℚ)
  deriving Repr, DecidableEq

/-- One atomic store operation of a `redeemCode` invocation (with a valid
non-empty code string): the snapshot read, then the credit transaction,
then the code removal. -/
def redeemCodeStep (uid code : String) (ph : RPhase) (s : Store) : RPhase × Store :=
  match ph with
  | .start =>
    match s.redemptionCodes code with
    | none => (.done (.err "not-found" "This code is invalid or has already been used."), s)
    | some cd => (.afterRead cd.amount, s)
  | .afterRead amt => (.afterCredit amt, s.addBalance uid amt)
  | .afterCredit amt => (.done (.ok amt), s.setRedemptionCode code none)
  | .done res => (.done res, s)

/-- Two concurrent `redeemCode` invocations over one shared store. -/
structure RaceState where
  store : Store
  caller1 : RPhase
  caller2 : RPhase

/-- Runs the next atomic operation of caller 1 (`true`) or caller 2
(`false`). -/
def raceStep (uid1 uid2 code : String) (st : RaceState) (first : Bool) : RaceState :=
  if first then
    let next := redeemCodeStep uid1 code st.caller1 st.store
    { st with caller1 := next.1, store := next.2 }
  else
    let next := redeemCodeStep uid2 code st.caller2 st.store
    { st with caller2 := next.1, store := next.2 }

/-- Runs the two concurrent invocations under a given interleaving
schedule. -/
def raceRun (uid1 uid2 code : String) (st : RaceState) (sched : List Bool) : RaceState :=
  sched.foldl (raceStep uid1 uid2 code) st

/-! Sequential operation sequences.

`Op` is one request to any of the embedded handlers together with all its
inputs (including the randomness, generated code string and timestamp the
handler consumes), and `applyOp` runs it to completion on the store.  A
`List Op` folded with `applyOp` is a sequential execution in which each
request finishes before the next begins. -/

/-- One request to an embedded handler, with all of its inputs. -/
inductive Op where
  | setup (uid : String) (email : Option String) (ts : Nat)
  | gift (senderUid : String) (recipientInput : Option String) (amountInput : Option ℚ)
  | issueCode (uid : String) (amountInput : Option ℚ) (code : String) (ts : Nat)
  | redeem (uid : String) (codeInput : Option String)
  | issueGiftCode (uid : String) (amountInput : Option ℚ) (code : String)
  | redeemGift (uid : String) (codeInput : Option String)
  | spinV1 (uid : String) (betInput : Option ℚ) (r : ℚ)
  | spinV2 (uid : String) (betInput : Option ℚ) (r : ℚ)
  | blackjackDeal (uid : String) (action : Option String) (betInput : Option ℚ)
  | heist (uid : String)

/-- Runs one request to completion and keeps the resulting store. -/
def applyOp (s : Store) : Op → Store
  | .setup uid email ts => (newUserSetup s uid email ts).2
  | .gift senderUid recipientInput amountInput => (giftBux s senderUid recipientInput amountInput).2
  | .issueCode uid amountInput code ts => (createRedemptionCode s uid amountInput code ts).2.1
  | .redeem uid codeInput => (redeemCode s uid codeInput).2
  | .issueGiftCode uid amountInput code => (createGiftCode s uid amountInput code).2.1
  | .redeemGift uid codeInput => (redeemGiftCode s uid codeInput).2
  | .spinV1 uid betInput r => (spinGambleWheel s uid betInput r).2
  | .spinV2 uid betInput r => (spinTheWheel s uid betInput r).2
  | .blackjackDeal uid action betInput => (playBlackjack s uid action betInput).2
  | .heist uid => (startHeist s uid).2.1

/-- A stored amount that is a non-negative integer. -/
def GoodAmount (q : ℚ) : Prop := 0 ≤ q ∧ q.den = 1

instance (q : ℚ) : Decidable (GoodAmount q) := by
  unfold GoodAmount; infer_instance

/-- Every committed balance and every stored code amount is a non-negative
integer. -/
def StoreInv (s : Store) : Prop :=
  (∀ u b, s.balanceOf u = some b → GoodAmount b) ∧
  (∀ c cd, s.redemptionCodes c = some cd → GoodAmount cd.amount) ∧
  (∀ c a cr, s.giftCodes c = some (.real a cr) → GoodAmount a)

/-- The request does not exploit the missing integrality check of
`playBlackjack`: a blackjack bet, when present, is an integer. -/
def OpIntOk : Op → Prop
  | .blackjackDeal _ _ (some bet) => jsIsInteger bet
  | _ => True

/-! Projection lemmas for the store writes. -/

@[simp]
theorem balanceOf_setBalance (s : Store) (uid : String) (b : ℚ) (u : String) :
    (s.setBalance uid b).balanceOf u = if u = uid then some b else s.balanceOf u := by
  by_cases h : u = uid <;> simp [Store.setBalance, Store.balanceOf, h]

@[simp]
theorem balanceOf_setUserNode (s : Store) (uid : String) (n : UserNode) (u : String) :
    (s.setUserNode uid n).balanceOf u = if u = uid then n.balance else s.balanceOf u := by
  by_cases h : u = uid <;> simp [Store.setUserNode, Store.balanceOf, h]

theorem addBalance_def (s : Store) (uid : String) (w : ℚ) :
    s.addBalance uid w = s.setBalance uid ((s.balanceOf uid).getD 0 + w) := rfl

@[simp]
theorem balanceOf_addBalance (s : Store) (uid : String) (w : ℚ) (u : String) :
    (s.addBalance uid w).balanceOf u =
      if u = uid then some ((s.balanceOf uid).getD 0 + w) else s.balanceOf u := by
  rw [addBalance_def, balanceOf_setBalance]

@[simp]
theorem balanceOf_setRedemptionCode (s : Store) (c : String) (v : Option RedemptionCode)
    (u : String) : (s.setRedemptionCode c v).balanceOf u = s.balanceOf u := rfl

@[simp]
theorem balanceOf_setGiftCode (s : Store) (c : String) (v : Option GiftCodeVal)
    (u : String) : (s.setGiftCode c v).balanceOf u = s.balanceOf u := rfl

@[simp]
theorem redemptionCodes_setBalance (s : Store) (uid : String) (b : ℚ) :
    (s.setBalance uid b).redemptionCodes = s.redemptionCodes := rfl

@[simp]
theorem redemptionCodes_addBalance (s : Store) (uid : String) (w : ℚ) :
    (s.addBalance uid w).redemptionCodes = s.redemptionCodes := rfl

@[simp]
theorem redemptionCodes_setUserNode (s : Store) (uid : String) (n : UserNode) :
    (s.setUserNode uid n).redemptionCodes = s.redemptionCodes := rfl

@[simp]
theorem redemptionCodes_setGiftCode (s : Store) (c : String) (v : Option GiftCodeVal) :
    (s.setGiftCode c v).redemptionCodes = s.redemptionCodes := rfl

@[simp]
theorem redemptionCodes_setRedemptionCode (s : Store) (c : String)
    (v : Option RedemptionCode) (c' : String) :
    (s.setRedemptionCode c v).redemptionCodes c' = if c' = c then v else s.redemptionCodes c' := rfl

@[simp]
theorem giftCodes_setBalance (s : Store) (uid : String) (b : ℚ) :
    (s.setBalance uid b).giftCodes = s.giftCodes := rfl

@[simp]
theorem giftCodes_addBalance (s : Store) (uid : String) (w : ℚ) :
    (s.addBalance uid w).giftCodes = s.giftCodes := rfl

@[simp]
theorem giftCodes_setUserNode (s : Store) (uid : String) (n : UserNode) :
    (s.setUserNode uid n).giftCodes = s.giftCodes := rfl

@[simp]
theorem giftCodes_setRedemptionCode (s : Store) (c : String) (v : Option RedemptionCode) :
    (s.setRedemptionCode c v).giftCodes = s.giftCodes := rfl

@[simp]
theorem giftCodes_setGiftCode (s : Store) (c : String) (v : Option GiftCodeVal) (c' : String) :
    (s.setGiftCode c v).giftCodes c' = if c' = c then v else s.giftCodes c' := rfl

@[simp]
theorem sessions_setBalance (s : Store) (uid : String) (b : ℚ) :
    (s.setBalance uid b).blackjackSessions = s.blackjackSessions := rfl

@[simp]
theorem bankStatus_setBalance (s : Store) (uid : String) (b : ℚ) :
    (s.setBalance uid b).bankStatus = s.bankStatus := rfl

@[simp]
theorem bankStatus_addBalance (s : Store) (uid : String) (w : ℚ) :
    (s.addBalance uid w).bankStatus = s.bankStatus := rfl

@[simp]
theorem bankStatus_setUserNode (s : Store) (uid : String) (n : UserNode) :
    (s.setUserNode uid n).bankStatus = s.bankStatus := rfl

/-! Evaluation helpers for the wheel draw. -/

theorem wheelIndex_eq (r : ℚ) (n : ℕ) (h : ⌊r * 8⌋ = (n : ℤ)) : wheelIndex r = n := by
  rw [wheelIndex, h, Int.toNat_natCast]

theorem wheelMultiplier_eq (r : ℚ) (n : ℕ) (h : wheelIndex r = n) :
    wheelMultiplier r = wheelMultiplierList.getD n 0 := by
  rw [wheelMultiplier, h]

/-- Every drawn multiplier is bankrupt or non-negative: any in-range index
hits one of the eight listed multipliers and an out-of-range index hits the
`getD` default. -/
theorem wheelMultiplier_neg_one_or_nonneg (r : ℚ) :
    wheelMultiplier r = -1 ∨ 0 ≤ wheelMultiplier r := by
  rw [wheelMultiplier]
  rcases hlt : wheelIndex r with _ | _ | _ | _ | _ | _ | _ | _ | i
  · right; norm_num [wheelMultiplierList]
  · right; norm_num [wheelMultiplierList]
  · right; norm_num [wheelMultiplierList]
  · left; norm_num [wheelMultiplierList]
  · right; norm_num [wheelMultiplierList]
  · right; norm_num [wheelMultiplierList]
  · right; norm_num [wheelMultiplierList]
  · right; norm_num [wheelMultiplierList]
  · right
    have : wheelMultiplierList.length ≤ i + 8 := by
      simp [wheelMultiplierList]
    rw [List.getD_eq_default _ _ this]

/-! Arithmetic closure lemmas for non-negative integer amounts. -/

theorem goodAmount_iff (q : ℚ) : GoodAmount q ↔ ∃ z : ℤ, 0 ≤ z ∧ q = (z : ℚ) := by
  constructor
  · rintro ⟨h0, hden⟩
    exact ⟨q.num, Rat.num_nonneg.mpr h0, ((Rat.den_eq_one_iff q).mp hden).symm⟩
  · rintro ⟨z, hz, rfl⟩
    exact ⟨by exact_mod_cast hz, Rat.den_intCast z⟩

theorem GoodAmount.zero : GoodAmount 0 :=
  (goodAmount_iff 0).mpr ⟨0, le_refl 0, by norm_num⟩

theorem GoodAmount.intCast (z : ℤ) (hz : 0 ≤ z) : GoodAmount (z : ℚ) :=
  (goodAmount_iff _).mpr ⟨z, hz, rfl⟩

theorem GoodAmount.add {a b : ℚ} (ha : GoodAmount a) (hb : GoodAmount b) :
    GoodAmount (a + b) := by
  rw [goodAmount_iff] at ha hb ⊢
  obtain ⟨za, hza, rfl⟩ := ha
  obtain ⟨zb, hzb, rfl⟩ := hb
  exact ⟨za + zb, by omega, by push_cast; ring⟩

theorem GoodAmount.sub_of_le {a b : ℚ} (ha : GoodAmount a) (hb : GoodAmount b)
    (h : b ≤ a) : GoodAmount (a - b) := by
  rw [goodAmount_iff] at ha hb ⊢
  obtain ⟨za, hza, rfl⟩ := ha
  obtain ⟨zb, hzb, rfl⟩ := hb
  have hle : zb ≤ za := by exact_mod_cast h
  exact ⟨za - zb, by omega, by push_cast; ring⟩

theorem GoodAmount.floorCast {q : ℚ} (h : 0 ≤ q) : GoodAmount ((⌊q⌋ : ℤ) : ℚ) :=
  GoodAmount.intCast _ (Int.floor_nonneg.mpr h)

theorem GoodAmount.of_pos_int {q : ℚ} (hint : jsIsInteger q) (hpos : 0 < q) :
    GoodAmount q :=
  ⟨le_of_lt hpos, by simpa [jsIsInteger] using hint⟩

/-- Under the store invariant, the `(balance || 0)` read of any balance is a
non-negative integer. -/
theorem StoreInv.balGetD {s : Store} (hs : StoreInv s) (uid : String) :
    GoodAmount ((s.balanceOf uid).getD 0) := by
  cases h : s.balanceOf uid with
  | none => exact GoodAmount.zero
  | some b => exact hs.1 uid b h

theorem storeInv_setBalance {s : Store} {uid : String} {b : ℚ} (hs : StoreInv s)
    (hb : GoodAmount b) : StoreInv (s.setBalance uid b) := by
  refine ⟨fun u x hx => ?_, fun c cd hc => hs.2.1 c cd hc, fun c a cr hc => hs.2.2 c a cr hc⟩
  rw [balanceOf_setBalance] at hx
  by_cases h : u = uid
  · rw [if_pos h] at hx; cases hx; exact hb
  · rw [if_neg h] at hx; exact hs.1 u x hx

theorem storeInv_addBalance {s : Store} {uid : String} {w : ℚ} (hs : StoreInv s)
    (hw : GoodAmount ((s.balanceOf uid).getD 0 + w)) : StoreInv (s.addBalance uid w) := by
  rw [addBalance_def]
  exact storeInv_setBalance hs hw

theorem goodAmount_hundred : GoodAmount (100 : ℚ) := by
  simpa using GoodAmount.intCast 100 (by norm_num)

theorem storeInv_setRedemptionCode {s : Store} {code : String} {v : Option RedemptionCode}
    (hs : StoreInv s) (hv : ∀ cd, v = some cd → GoodAmount cd.amount) :
    StoreInv (s.setRedemptionCode code v) := by
  refine ⟨hs.1, fun c cd hc => ?_, hs.2.2⟩
  rw [redemptionCodes_setRedemptionCode] at hc
  by_cases h : c = code
  · rw [if_pos h] at hc; exact hv cd hc
  · rw [if_neg h] at hc; exact hs.2.1 c cd hc

theorem storeInv_setGiftCode {s : Store} {code : String} {v : Option GiftCodeVal}
    (hs : StoreInv s) (hv : ∀ a cr, v = some (.real a cr) → GoodAmount a) :
    StoreInv (s.setGiftCode code v) := by
  refine ⟨hs.1, hs.2.1, fun c a cr hc => ?_⟩
  rw [giftCodes_setGiftCode] at hc
  by_cases h : c = code
  · rw [if_pos h] at hc; exact hv a cr hc
  · rw [if_neg h] at hc; exact hs.2.2 c a cr hc

theorem storeInv_newUserSetup (s : Store) (uid : String) (email : Option String) (ts : Nat)
    (hs : StoreInv s) : StoreInv (newUserSetup s uid email ts).2 := by
  unfold newUserSetup
  by_cases h : (s.users uid).isPresent
  · simp only [h, if_true]; exact hs
  · simp only [h, Bool.false_eq_true, if_false]
    refine ⟨fun u x hx => ?_, hs.2.1, hs.2.2⟩
    rw [balanceOf_setUserNode] at hx
    by_cases hu : u = uid
    · rw [if_pos hu] at hx
      cases hx
      exact goodAmount_hundred
    · rw [if_neg hu] at hx; exact hs.1 u x hx

theorem storeInv_giftBux (s : Store) (senderUid : String) (recip : Option String)
    (amt : Option ℚ) (hs : StoreInv s) : StoreInv (giftBux s senderUid recip amt).2 := by
  rcases recip with _ | r
  · exact hs
  by_cases hr : r = ""
  · simp only [giftBux, if_pos hr]; exact hs
  rcases amt with _ | a
  · simp only [giftBux, if_neg hr]; exact hs
  by_cases hv : ¬ jsIsInteger a ∨ a ≤ 0
  · simp only [giftBux, if_neg hr, if_pos hv]; exact hs
  by_cases hself : senderUid = r
  · simp only [giftBux, if_neg hr, if_neg hv, if_pos hself]; exact hs
  simp only [giftBux, if_neg hr, if_neg hv, if_neg hself]
  cases hbal : s.balanceOf senderUid with
  | none => exact hs
  | some cur =>
    by_cases hlt : cur < a
    · simp only [if_pos hlt]; exact hs
    · simp only [if_neg hlt]
      push_neg at hv
      have hga : GoodAmount a := GoodAmount.of_pos_int hv.1 hv.2
      have hs1 : StoreInv (s.setBalance senderUid (cur - a)) :=
        storeInv_setBalance hs (((hs.1 senderUid cur hbal).sub_of_le) hga (not_lt.mp hlt))
      exact storeInv_addBalance hs1 ((hs1.balGetD r).add hga)

theorem storeInv_createRedemptionCode (s : Store) (uid : String) (amt : Option ℚ)
    (code : String) (ts : Nat) (hs : StoreInv s) :
    StoreInv (createRedemptionCode s uid amt code ts).2.1 := by
  rcases amt with _ | a
  · exact hs
  by_cases hv : ¬ jsIsInteger a ∨ a ≤ 0
  · simp only [createRedemptionCode, if_pos hv]; exact hs
  simp only [createRedemptionCode, if_neg hv]
  cases hbal : s.balanceOf uid with
  | none => exact hs
  | some cur =>
    by_cases hlt : cur < a
    · simp only [if_pos hlt]; exact hs
    · simp only [if_neg hlt]
      push_neg at hv
      have hga : GoodAmount a := GoodAmount.of_pos_int hv.1 hv.2
      have hs1 : StoreInv (s.setBalance uid (cur - a)) :=
        storeInv_setBalance hs (((hs.1 uid cur hbal).sub_of_le) hga (not_lt.mp hlt))
      exact storeInv_setRedemptionCode hs1 (fun cd hcd => by cases hcd; exact hga)

theorem storeInv_redeemCode (s : Store) (uid : String) (codeInput : Option String)
    (hs : StoreInv s) : StoreInv (redeemCode s uid codeInput).2 := by
  rcases codeInput with _ | code
  · exact hs
  by_cases hc : code = ""
  · simp only [redeemCode, if_pos hc]; exact hs
  simp only [redeemCode, if_neg hc]
  cases hcd : s.redemptionCodes code with
  | none => exact hs
  | some cd =>
    have hga : GoodAmount cd.amount := hs.2.1 code cd hcd
    have hs1 : StoreInv (s.addBalance uid cd.amount) :=
      storeInv_addBalance hs ((hs.balGetD uid).add hga)
    exact storeInv_setRedemptionCode hs1 (fun cd hcd => by cases hcd)

theorem storeInv_createGiftCode (s : Store) (uid : String) (amt : Option ℚ)
    (code : String) (hs : StoreInv s) : StoreInv (createGiftCode s uid amt code).2.1 := by
  rcases amt with _ | a
  · exact hs
  by_cases hv : ¬ jsIsInteger a ∨ a ≤ 0
  · simp only [createGiftCode, if_pos hv]; exact hs
  simp only [createGiftCode, if_neg hv]
  cases hbal : s.balanceOf uid with
  | none => exact hs
  | some cur =>
    by_cases hlt : cur < a
    · simp only [if_pos hlt]; exact hs
    · simp only [if_neg hlt]
      push_neg at hv
      have hga : GoodAmount a := GoodAmount.of_pos_int hv.1 hv.2
      have hs1 : StoreInv (s.setGiftCode code (some (.real a uid))) :=
        storeInv_setGiftCode hs (fun a' cr hcd => by cases hcd; exact hga)
      apply storeInv_addBalance hs1
      have hb1 : (s.setGiftCode code (some (.real a uid))).balanceOf uid = some cur := hbal
      rw [hb1]
      have : cur + -a = cur - a := by ring
      rw [Option.getD_some, this]
      exact ((hs.1 uid cur hbal).sub_of_le) hga (not_lt.mp hlt)

theorem storeInv_redeemGiftCode (s : Store) (uid : String) (codeInput : Option String)
    (hs : StoreInv s) : StoreInv (redeemGiftCode s uid codeInput).2 := by
  unfold redeemGiftCode
  by_cases hc : jsToUpper (jsTrim (codeInput.getD "")) = ""
  · simp only [hc, if_pos rfl]; exact hs
  simp only [if_neg hc]
  cases hcd : s.giftCodes (jsToUpper (jsTrim (codeInput.getD ""))) with
  | none => exact hs
  | some v =>
    cases v with
    | real a cr =>
      by_cases hcr : cr = uid
      · simp only [if_pos hcr]
        exact storeInv_setGiftCode hs (fun a' cr' h => by cases h)
      · simp only [if_neg hcr]
        exact storeInv_setGiftCode hs (fun a' cr' h => by cases h)
    | errMarker => exact storeInv_setGiftCode hs (fun a' cr' h => by cases h)

theorem storeInv_spinGambleWheelResolve {s : Store} {uid : String} {bet m : ℚ}
    (hs : StoreInv s) (hbet : 0 < bet) (hm : m = -1 ∨ 0 ≤ m) :
    StoreInv (spinGambleWheelResolve s uid bet m) := by
  unfold spinGambleWheelResolve
  by_cases h1 : m = -1
  · rw [if_pos h1]; exact storeInv_setBalance hs GoodAmount.zero
  · rw [if_neg h1]
    by_cases h2 : 0 < m
    · rw [if_pos h2]
      exact storeInv_addBalance hs
        ((hs.balGetD uid).add (GoodAmount.floorCast (le_of_lt (mul_pos hbet h2))))
    · rw [if_neg h2]; exact hs

theorem storeInv_spinGambleWheel (s : Store) (uid : String) (betInput : Option ℚ) (r : ℚ)
    (hs : StoreInv s) : StoreInv (spinGambleWheel s uid betInput r).2 := by
  rcases betInput with _ | bet
  · exact hs
  by_cases hv : ¬ jsIsInteger bet ∨ bet ≤ 0
  · simp only [spinGambleWheel, if_pos hv]; exact hs
  simp only [spinGambleWheel, if_neg hv]
  unfold spinGambleWheelDebit
  cases hbal : s.balanceOf uid with
  | none => exact hs
  | some cur =>
    by_cases hlt : cur < bet
    · simp only [if_pos hlt]; exact hs
    · simp only [if_neg hlt]
      push_neg at hv
      have hga : GoodAmount bet := GoodAmount.of_pos_int hv.1 hv.2
      exact storeInv_spinGambleWheelResolve
        (storeInv_setBalance hs (((hs.1 uid cur hbal).sub_of_le) hga (not_lt.mp hlt)))
        hv.2 (wheelMultiplier_neg_one_or_nonneg r)

theorem storeInv_spinTheWheel (s : Store) (uid : String) (betInput : Option ℚ) (r : ℚ)
    (hs : StoreInv s) : StoreInv (spinTheWheel s uid betInput r).2 := by
  rcases betInput with _ | bet
  · exact hs
  by_cases hv : ¬ jsIsInteger bet ∨ bet ≤ 0
  · simp only [spinTheWheel, if_pos hv]; exact hs
  simp only [spinTheWheel, if_neg hv]
  unfold spinTheWheelDebit
  push_neg at hv
  by_cases hlt : (s.balanceOf uid).getD 0 < bet
  · simp only [if_pos hlt]; exact hs
  simp only [if_neg hlt]
  have hcurGood : GoodAmount ((s.balanceOf uid).getD 0) := hs.balGetD uid
  have hga : GoodAmount bet := GoodAmount.of_pos_int hv.1 hv.2
  have hsubGood : GoodAmount ((s.balanceOf uid).getD 0 + -bet) := by
    have h1 : (s.balanceOf uid).getD 0 + -bet = (s.balanceOf uid).getD 0 - bet := by ring
    rw [h1]
    exact (hcurGood.sub_of_le) hga (not_lt.mp hlt)
  have hs1 : StoreInv (s.addBalance uid (-bet)) := storeInv_addBalance hs hsubGood
  unfold spinTheWheelResolve spinTheWheelPayout
  rcases wheelMultiplier_neg_one_or_nonneg r with hm | hm
  · rw [if_pos hm]
    apply storeInv_addBalance hs1
    have hb1 : (s.addBalance uid (-bet)).balanceOf uid =
        some ((s.balanceOf uid).getD 0 + -bet) := by
      simp
    rw [hb1, Option.getD_some]
    have : (s.balanceOf uid).getD 0 + -bet + -((s.balanceOf uid).getD 0 - bet) = 0 := by ring
    rw [this]
    exact GoodAmount.zero
  · by_cases h1 : wheelMultiplier r = -1
    · rw [h1] at hm; norm_num at hm
    · rw [if_neg h1]
      apply storeInv_addBalance hs1
      exact (hs1.balGetD uid).add
        (GoodAmount.floorCast (mul_nonneg (le_of_lt hv.2) hm))

theorem storeInv_playBlackjack (s : Store) (uid : String) (action : Option String)
    (betInput : Option ℚ)
    (hint : ∀ bet, betInput = some bet → jsIsInteger bet)
    (hs : StoreInv s) : StoreInv (playBlackjack s uid action betInput).2 := by
  by_cases hact : action ≠ some "deal"
  · simp only [playBlackjack, if_pos hact]; exact hs
  simp only [playBlackjack, if_neg hact]
  rcases betInput with _ | bet
  · exact hs
  by_cases hb : bet ≤ 0
  · simp only [if_pos hb]; exact hs
  simp only [if_neg hb]
  cases hbal : s.balanceOf uid with
  | none => exact hs
  | some cur =>
    by_cases hlt : cur < bet
    · simp only [if_pos hlt]; exact hs
    · simp only [if_neg hlt]
      have hga : GoodAmount bet :=
        GoodAmount.of_pos_int (hint bet rfl) (not_le.mp hb)
      exact storeInv_setBalance hs (((hs.1 uid cur hbal).sub_of_le) hga (not_lt.mp hlt))

theorem storeInv_startHeist (s : Store) (uid : String) (hs : StoreInv s) :
    StoreInv (startHeist s uid).2.1 := by
  unfold startHeist
  cases hbal : s.balanceOf uid with
  | none => exact hs
  | some cur =>
    by_cases hcond : s.bankStatus ≠ "safe" ∨ cur < heistCost
    · simp only [if_pos hcond]; exact hs
    · simp only [if_neg hcond]
      push_neg at hcond
      have hs1 : StoreInv (s.setBalance uid (cur - heistCost)) :=
        storeInv_setBalance hs
          (((hs.1 uid cur hbal).sub_of_le) goodAmount_hundred hcond.2)
      exact hs1

/-- One sequentially executed request preserves the invariant, provided a
blackjack bet, when accepted, is an integer. -/
theorem storeInv_applyOp (s : Store) (op : Op) (hop : OpIntOk op) (hs : StoreInv s) :
    StoreInv (applyOp s op) := by
  cases op with
  | setup uid email ts => exact storeInv_newUserSetup s uid email ts hs
  | gift senderUid recip amt => exact storeInv_giftBux s senderUid recip amt hs
  | issueCode uid amt code ts => exact storeInv_createRedemptionCode s uid amt code ts hs
  | redeem uid codeInput => exact storeInv_redeemCode s uid codeInput hs
  | issueGiftCode uid amt code => exact storeInv_createGiftCode s uid amt code hs
  | redeemGift uid codeInput => exact storeInv_redeemGiftCode s uid codeInput hs
  | spinV1 uid betInput r => exact storeInv_spinGambleWheel s uid betInput r hs
  | spinV2 uid betInput r => exact storeInv_spinTheWheel s uid betInput r hs
  | blackjackDeal uid action betInput =>
    refine storeInv_playBlackjack s uid action betInput (fun bet hbet => ?_) hs
    subst hbet
    exact hop
  | heist uid => exact storeInv_startHeist s uid hs

/-! Claim theorems. -/

/-- Claim C10: `newUserSetup` on a user with no existing `/users` node
creates the node with balance exactly `INITIAL_BALANCE = 100`; on a user
whose node already exists, every later call returns the already-exists
message and leaves the stored record (email, balance, createdAt) completely
unchanged. -/
theorem newUserSetup_initial_balance_and_frame (s : Store) (uid : String)
    (email : Option String) (ts : Nat) :
    ((s.users uid).isPresent = false →
      newUserSetup s uid email ts =
        (.ok "User profile created successfully.",
          s.setUserNode uid ⟨email, some INITIAL_BALANCE, some ts⟩) ∧
      (newUserSetup s uid email ts).2.balanceOf uid = some 100 ∧
      (newUserSetup s uid email ts).2.users uid = ⟨email, some 100, some ts⟩) ∧
    ((s.users uid).isPresent = true →
      newUserSetup s uid email ts = (.ok "User profile already exists.", s)) := by
  constructor
  · intro h
    refine ⟨by simp [newUserSetup, h], ?_, ?_⟩
    · simp [newUserSetup, h, INITIAL_BALANCE]
    · simp [newUserSetup, h, Store.setUserNode, INITIAL_BALANCE]
  · intro h
    simp [newUserSetup, h]

/-- Witness for C10 at a concrete input: a fresh user is created with
balance 100, and a second call on the same user changes nothing. -/
theorem newUserSetup_initial_balance_and_frame_witness :
    ((initState.users "alice").isPresent = false) ∧
    ((newUserSetup initState "alice" none 0).2.balanceOf "alice" = some 100) ∧
    (newUserSetup (newUserSetup initState "alice" none 0).2 "alice" (some "a@b") 5
      = (.ok "User profile already exists.", (newUserSetup initState "alice" none 0).2)) := by
  refine ⟨rfl, ?_, ?_⟩
  · exact ((newUserSetup_initial_balance_and_frame initState "alice" none 0).1 rfl).2.1
  · refine (newUserSetup_initial_balance_and_frame
      (newUserSetup initState "alice" none 0).2 "alice" (some "a@b") 5).2 ?_
    decide

/-- Claim C2 is refuted at a concrete input: `spinTheWheel` resolves a
bankrupt draw by incrementing the balance with the negative of the balance
it read before the debit minus the bet — a relative delta, not an absolute
reset.  Here alice holds 100 and spins with bet 100 (debit commits, balance
0); between the debit and the resolution a concurrent `giftBux` from bob
credits alice 30; the bankrupt resolution then leaves alice at 30, not 0. -/
theorem spinTheWheel_bankrupt_not_absolute_reset :
    (spinTheWheelDebit ((initState.setBalance "alice" 100).setBalance "bob" 100)
        "alice" 100) =
      some (100, ((initState.setBalance "alice" 100).setBalance "bob" 100).addBalance
        "alice" (-100)) ∧
    wheelMultiplier (3/8) = -1 ∧
    (giftBux (((initState.setBalance "alice" 100).setBalance "bob" 100).addBalance
        "alice" (-100)) "bob" (some "alice") (some 30)).1 = .ok () ∧
    (spinTheWheelResolve
        (giftBux (((initState.setBalance "alice" 100).setBalance "bob" 100).addBalance
          "alice" (-100)) "bob" (some "alice") (some 30)).2
        "alice" 100 100 (wheelMultiplier (3/8))).balanceOf "alice" = some 30 ∧
    (spinTheWheelResolve
        (giftBux (((initState.setBalance "alice" 100).setBalance "bob" 100).addBalance
          "alice" (-100)) "bob" (some "alice") (some 30)).2
        "alice" 100 100 (wheelMultiplier (3/8))).balanceOf "alice" ≠ some 0 := by
  have hidx : wheelIndex (3/8) = 3 := wheelIndex_eq _ 3 (by norm_num)
  have hm : wheelMultiplier (3/8) = -1 := by
    rw [wheelMultiplier_eq _ 3 hidx]; rfl
  have hs0a : ((initState.setBalance "alice" 100).setBalance "bob" 100).balanceOf "alice"
      = some 100 := by simp
  have hs1a : (((initState.setBalance "alice" 100).setBalance "bob" 100).addBalance
      "alice" (-100)).balanceOf "alice" = some 0 := by
    simp [hs0a]
  have hs1b : (((initState.setBalance "alice" 100).setBalance "bob" 100).addBalance
      "alice" (-100)).balanceOf "bob" = some 100 := by
    simp
  have hdeb : (spinTheWheelDebit ((initState.setBalance "alice" 100).setBalance "bob" 100)
      "alice" 100) =
      some (100, ((initState.setBalance "alice" 100).setBalance "bob" 100).addBalance
        "alice" (-100)) := by
    unfold spinTheWheelDebit
    rw [hs0a]
    norm_num
  have hgift : giftBux (((initState.setBalance "alice" 100).setBalance "bob" 100).addBalance
      "alice" (-100)) "bob" (some "alice") (some 30) =
      (.ok (), ((((initState.setBalance "alice" 100).setBalance "bob" 100).addBalance
        "alice" (-100)).setBalance "bob" (100 - 30)).addBalance "alice" 30) := by
    have h30 : jsIsInteger (30:ℚ) = true := by decide
    simp only [giftBux, hs1b]
    norm_num [h30, show ("alice" : String) ≠ "" from by decide,
      show ("bob" : String) ≠ "alice" from by decide]
  have hs2a : ((((initState.setBalance "alice" 100).setBalance "bob" 100).addBalance
      "alice" (-100)).setBalance "bob" (100 - 30)).balanceOf "alice" = some 0 := by
    rw [balanceOf_setBalance, if_neg (by decide : ¬ ("alice" : String) = "bob")]
    exact hs1a
  have hp : spinTheWheelPayout 100 100 (-1) = 0 := by
    simp [spinTheWheelPayout]
  have hfin : (spinTheWheelResolve
      (giftBux (((initState.setBalance "alice" 100).setBalance "bob" 100).addBalance
        "alice" (-100)) "bob" (some "alice") (some 30)).2
      "alice" 100 100 (wheelMultiplier (3/8))).balanceOf "alice" = some 30 := by
    rw [hgift, hm]
    unfold spinTheWheelResolve
    rw [hp, balanceOf_addBalance, if_pos rfl, balanceOf_addBalance, if_pos rfl, hs2a]
    norm_num
  refine ⟨hdeb, hm, by rw [hgift], hfin, ?_⟩
  rw [hfin]
  norm_num

/-- Claim C2 (amended): the two wheel variants resolve a bankrupt draw
differently.  `spinGambleWheel` overwrites the balance with 0, so whatever
the balance is at resolution time (any interleaved changes included) the
committed balance is exactly 0.  `spinTheWheel` increments by the negative
of (read balance - bet), which yields 0 exactly when the balance at
resolution still equals the post-debit value. -/
theorem bankrupt_reset_by_variant (sGW sTW : Store) (uid : String)
    (cur bet r : ℚ) (hm : wheelMultiplier r = -1) :
    (spinGambleWheelResolve sGW uid bet (wheelMultiplier r)).balanceOf uid = some 0 ∧
    (sTW.balanceOf uid = some (cur - bet) →
      (spinTheWheelResolve sTW uid cur bet (wheelMultiplier r)).balanceOf uid = some 0) := by
  rw [hm]
  constructor
  · simp [spinGambleWheelResolve]
  · intro hb
    have hp : spinTheWheelPayout cur bet (-1) = -(cur - bet) := by
      simp [spinTheWheelPayout]
    unfold spinTheWheelResolve
    rw [hp, balanceOf_addBalance, if_pos rfl, hb, Option.getD_some]
    congr 1
    ring

/-- Witness for C2 (amended) at a concrete input: with the bankrupt draw
`r = 3/8`, `spinGambleWheel`-style resolution zeroes a balance of 170, and
`spinTheWheel`-style resolution zeroes the undisturbed post-debit balance. -/
theorem bankrupt_reset_by_variant_witness :
    (spinGambleWheelResolve
        ((newUserSetup initState "carol" none 0).2.setBalance "carol" 170)
        "carol" 100 (wheelMultiplier (3/8))).balanceOf "carol" = some 0 ∧
    (spinTheWheelResolve
        ((newUserSetup initState "carol" none 0).2.setBalance "carol" 60)
        "carol" 160 100 (wheelMultiplier (3/8))).balanceOf "carol" = some 0 := by
  have hidx : wheelIndex (3/8) = 3 := wheelIndex_eq _ 3 (by norm_num)
  have hm : wheelMultiplier (3/8) = -1 := by
    rw [wheelMultiplier_eq _ 3 hidx]; rfl
  have h := bankrupt_reset_by_variant
    ((newUserSetup initState "carol" none 0).2.setBalance "carol" 170)
    ((newUserSetup initState "carol" none 0).2.setBalance "carol" 60)
    "carol" 160 100 (3/8) hm
  refine ⟨h.1, h.2 ?_⟩
  norm_num

/-- Claim C8 is refuted at a concrete input: `playBlackjack` with the deal
action debits the bet and returns the hard-coded game state; it writes no
session — after the call the session store is untouched and holds nothing
for the player — so no deck, dealer hand or session is persisted
server-side. -/
theorem playBlackjack_persists_no_session :
    (playBlackjack (newUserSetup initState "alice" none 0).2 "alice"
        (some "deal") (some 10)).1 = .ok initialGameState ∧
    (playBlackjack (newUserSetup initState "alice" none 0).2 "alice"
        (some "deal") (some 10)).2.blackjackSessions =
      (newUserSetup initState "alice" none 0).2.blackjackSessions ∧
    (playBlackjack (newUserSetup initState "alice" none 0).2 "alice"
        (some "deal") (some 10)).2.blackjackSessions "alice" = none ∧
    (playBlackjack (newUserSetup initState "alice" none 0).2 "alice"
        (some "deal") (some 10)).2.balanceOf "alice" = some 90 := by
  refine ⟨?_, rfl, rfl, ?_⟩ <;>
    norm_num [playBlackjack, newUserSetup, initState, UserNode.isPresent, UserNode.absent,
      Store.setUserNode, Store.balanceOf, Store.setBalance, INITIAL_BALANCE]

/-- Claim C8 (amended): `playBlackjack` with the deal action debits the bet
through an atomic transaction — failing with no state change when the
balance is absent or insufficient — and on success returns the fixed
hard-coded view (player hand ace of spades and ten of diamonds, score 21,
dealer hand seven of clubs plus the masked placeholder card); it builds no
deck and persists no session. -/
theorem playBlackjack_deal_behavior (s : Store) (uid : String) (bet cur : ℚ)
    (hbal : s.balanceOf uid = some cur) (hbet : 0 < bet) :
    (¬ cur < bet →
      playBlackjack s uid (some "deal") (some bet) =
        (.ok initialGameState, s.setBalance uid (cur - bet)) ∧
      (playBlackjack s uid (some "deal") (some bet)).2.blackjackSessions =
        s.blackjackSessions ∧
      initialGameState.playerHand = [⟨"A", "♠"⟩, ⟨"10", "♦"⟩] ∧
      initialGameState.dealerHand = [⟨"7", "♣"⟩, ⟨"?", "?"⟩] ∧
      initialGameState.playerScore = 21) ∧
    (cur < bet →
      playBlackjack s uid (some "deal") (some bet) =
        (.err "aborted" "Insufficient balance to place the bet.", s)) := by
  constructor
  · intro hge
    have hres : playBlackjack s uid (some "deal") (some bet) =
        (.ok initialGameState, s.setBalance uid (cur - bet)) := by
      simp [playBlackjack, hbal, hge, not_le.mpr hbet, le_of_lt hbet]
    refine ⟨hres, ?_, rfl, rfl, rfl⟩
    rw [hres]
    simp
  · intro hlt
    simp [playBlackjack, hbal, hlt, not_le.mpr hbet]

/-- Witness for C8 (amended) at a concrete input: with balance 100, a deal
with bet 10 debits to 90 and returns the constant view; with bet 1000 it
aborts unchanged. -/
theorem playBlackjack_deal_behavior_witness :
    (playBlackjack (newUserSetup initState "alice" none 0).2 "alice"
        (some "deal") (some 10) =
      (.ok initialGameState,
        (newUserSetup initState "alice" none 0).2.setBalance "alice" (100 - 10))) ∧
    (playBlackjack (newUserSetup initState "alice" none 0).2 "alice"
        (some "deal") (some 1000) =
      (.err "aborted" "Insufficient balance to place the bet.",
        (newUserSetup initState "alice" none 0).2)) := by
  have hbal : (newUserSetup initState "alice" none 0).2.balanceOf "alice" = some 100 := by
    norm_num [newUserSetup, initState, UserNode.isPresent, UserNode.absent,
      Store.setUserNode, Store.balanceOf, INITIAL_BALANCE]
  constructor
  · exact ((playBlackjack_deal_behavior _ "alice" 10 100 hbal (by norm_num)).1
      (by norm_num)).1
  · exact (playBlackjack_deal_behavior _ "alice" 1000 100 hbal (by norm_num)).2
      (by norm_num)

theorem startHeist_not_safe (s : Store) (uid : String) (h : s.bankStatus ≠ "safe") :
    startHeist s uid = (.err "permission-denied" "Heist could not be started.", s, []) := by
  unfold startHeist
  split
  · rfl
  · rw [if_pos (Or.inl h)]

theorem startHeist_run (s : Store) (uid : String) (cur : ℚ)
    (hbal : s.balanceOf uid = some cur) (hsafe : s.bankStatus = "safe")
    (hge : ¬ cur < heistCost) :
    (startHeist s uid).1 = .ok () ∧
    (startHeist s uid).2.1.bankStatus = "in progress" ∧
    (startHeist s uid).2.1.balanceOf uid = some (cur - heistCost) ∧
    (startHeist s uid).2.1.heistPlayers uid = some ⟨"playing", 0⟩ ∧
    (startHeist s uid).2.2 = [.heistBatch uid heistCost] := by
  have hcond : ¬ (s.bankStatus ≠ "safe" ∨ cur < heistCost) := by
    push_neg
    exact ⟨hsafe, not_lt.mp hge⟩
  unfold startHeist
  simp only [hbal]
  rw [if_neg hcond]
  refine ⟨rfl, rfl, ?_, ?_, rfl⟩
  · show (s.setBalance uid (cur - heistCost)).balanceOf uid = some (cur - heistCost)
    simp
  · simp

/-- Claim C9 is refuted at a concrete input: `startHeist` commits the
status transition, the balance debit and the player record together in one
atomic multi-location update.  On a successful run its write trace is a
single batch event, so no debit write occurs strictly after a
status-transition write — there is no two-step transition-then-debit
sequence and no rollback step. -/
theorem startHeist_no_debit_after_transition :
    (startHeist (initState.setBalance "alice" 150) "alice").1 = .ok () ∧
    (startHeist (initState.setBalance "alice" 150) "alice").2.1.bankStatus = "in progress" ∧
    (startHeist (initState.setBalance "alice" 150) "alice").2.1.balanceOf "alice" = some 50 ∧
    (startHeist (initState.setBalance "alice" 150) "alice").2.2 =
      [.heistBatch "alice" 100] ∧
    ¬ statusBeforeDebit (startHeist (initState.setBalance "alice" 150) "alice").2.2 := by
  have h := startHeist_run (initState.setBalance "alice" 150) "alice" 150 (by simp) rfl
    (by norm_num [heistCost])
  have htr : (startHeist (initState.setBalance "alice" 150) "alice").2.2 =
      [.heistBatch "alice" 100] := by
    rw [h.2.2.2.2]
    norm_num [heistCost]
  refine ⟨h.1, h.2.1, ?_, htr, ?_⟩
  · rw [h.2.2.1]
    norm_num [heistCost]
  · rw [htr]
    rintro ⟨i, j, hij, -, -⟩
    have hi := i.isLt
    have hj := j.isLt
    simp only [List.length_cons, List.length_nil] at hi hj
    omega

/-- Claim C9 (amended): `startHeist` performs one atomic multi-location
update writing the bank-status transition, the entry-cost debit and the
participation record together; the database security rules (modelled from
the spec, as they are not part of the repository) reject the whole write
with no side effect when a heist is already in progress or the balance does
not cover the entry cost.  The transition and the debit commit
simultaneously in a single batch — not debit-after-transition — so no
rollback step exists, and after a successful start any further `startHeist`
fails with no state change, giving at most one heist in progress. -/
theorem startHeist_atomic_batch_behavior (s : Store) (uid : String) (cur : ℚ)
    (hbal : s.balanceOf uid = some cur) :
    (s.bankStatus ≠ "safe" →
      startHeist s uid = (.err "permission-denied" "Heist could not be started.", s, [])) ∧
    (cur < heistCost →
      startHeist s uid = (.err "permission-denied" "Heist could not be started.", s, [])) ∧
    (s.bankStatus = "safe" → ¬ cur < heistCost →
      (startHeist s uid).1 = .ok () ∧
      (startHeist s uid).2.1.bankStatus = "in progress" ∧
      (startHeist s uid).2.1.balanceOf uid = some (cur - heistCost) ∧
      (startHeist s uid).2.1.heistPlayers uid = some ⟨"playing", 0⟩ ∧
      (startHeist s uid).2.2 = [.heistBatch uid heistCost] ∧
      (∀ v, startHeist (startHeist s uid).2.1 v =
        (.err "permission-denied" "Heist could not be started.",
          (startHeist s uid).2.1, []))) := by
  refine ⟨?_, ?_, ?_⟩
  · exact fun h => startHeist_not_safe s uid h
  · intro hlt
    unfold startHeist
    simp only [hbal]
    rw [if_pos (Or.inr hlt)]
  · intro hsafe hge
    have h := startHeist_run s uid cur hbal hsafe hge
    refine ⟨h.1, h.2.1, h.2.2.1, h.2.2.2.1, h.2.2.2.2, ?_⟩
    intro v
    apply startHeist_not_safe
    rw [h.2.1]
    decide

/-- Witness for C9 (amended) at concrete inputs: with the bank safe and
balance 150 the start succeeds and flips the status, and with balance 30 it
is rejected with no state change. -/
theorem startHeist_atomic_batch_behavior_witness :
    ((startHeist (initState.setBalance "bob" 150) "bob").1 = .ok () ∧
     (startHeist (initState.setBalance "bob" 150) "bob").2.1.bankStatus = "in progress") ∧
    (startHeist (initState.setBalance "bob" 30) "bob" =
      (.err "permission-denied" "Heist could not be started.",
        initState.setBalance "bob" 30, [])) := by
  have h1 := (startHeist_atomic_batch_behavior (initState.setBalance "bob" 150) "bob" 150
    (by simp)).2.2 rfl (by norm_num [heistCost])
  have h2 := (startHeist_atomic_batch_behavior (initState.setBalance "bob" 30) "bob" 30
    (by simp)).2.1 (by norm_num [heistCost])
  exact ⟨⟨h1.1, h1.2.1⟩, h2⟩

/-- Claim C5 is refuted at a concrete input: the `redeemCode` variant in
functions/index.js performs no self-redeem check, so the creator of a code
can redeem it back.  Here alice (balance 100) creates a 60-BUX code,
dropping to 40, and then redeems her own code successfully, returning to
100 with the code consumed. -/
theorem redeemCode_creator_can_self_redeem :
    (createRedemptionCode (initState.setBalance "alice" 100) "alice" (some 60)
        "LBX-SELF" 1).2.1.redemptionCodes "LBX-SELF" = some ⟨60, "alice", 1⟩ ∧
    (redeemCode (createRedemptionCode (initState.setBalance "alice" 100) "alice" (some 60)
        "LBX-SELF" 1).2.1 "alice" (some "LBX-SELF")).1 = .ok 60 ∧
    (redeemCode (createRedemptionCode (initState.setBalance "alice" 100) "alice" (some 60)
        "LBX-SELF" 1).2.1 "alice" (some "LBX-SELF")).2.balanceOf "alice" = some 100 ∧
    (redeemCode (createRedemptionCode (initState.setBalance "alice" 100) "alice" (some 60)
        "LBX-SELF" 1).2.1 "alice" (some "LBX-SELF")).2.redemptionCodes "LBX-SELF"
      = none := by
  have hbal0 : (initState.setBalance "alice" 100).balanceOf "alice" = some 100 := by simp
  have hc : createRedemptionCode (initState.setBalance "alice" 100) "alice" (some 60)
      "LBX-SELF" 1 =
      (.ok "LBX-SELF",
        ((initState.setBalance "alice" 100).setBalance "alice"
          (100 - 60)).setRedemptionCode "LBX-SELF" (some ⟨60, "alice", 1⟩),
        [.debit "alice" 60, .codeWrite "LBX-SELF"]) := by
    have h60 : jsIsInteger (60:ℚ) = true := by decide
    simp only [createRedemptionCode, hbal0]
    norm_num [h60]
  have hlook : (createRedemptionCode (initState.setBalance "alice" 100) "alice" (some 60)
      "LBX-SELF" 1).2.1.redemptionCodes "LBX-SELF" = some ⟨60, "alice", 1⟩ := by
    rw [hc]
    simp
  have hbal1 : (createRedemptionCode (initState.setBalance "alice" 100) "alice" (some 60)
      "LBX-SELF" 1).2.1.balanceOf "alice" = some 40 := by
    rw [hc]
    norm_num
  have hr : redeemCode (createRedemptionCode (initState.setBalance "alice" 100) "alice"
      (some 60) "LBX-SELF" 1).2.1 "alice" (some "LBX-SELF") =
      (.ok 60,
        ((createRedemptionCode (initState.setBalance "alice" 100) "alice" (some 60)
          "LBX-SELF" 1).2.1.addBalance "alice" 60).setRedemptionCode "LBX-SELF" none) := by
    simp only [redeemCode, hlook]
    rw [if_neg (by decide : ¬ ("LBX-SELF" : String) = "")]
  refine ⟨hlook, by rw [hr], ?_, by rw [hr]; simp⟩
  rw [hr]
  simp only [balanceOf_setRedemptionCode, balanceOf_addBalance, if_pos rfl, hbal1]
  norm_num

/-- Claim C5 (amended): self-gifting is rejected before any mutation —
`giftBux` from a user to themselves always fails with the cannot-gift-to-
yourself error and an unchanged store.  Self-redemption is rejected only by
the `redeemGiftCode` variant, and not cleanly: the rejecting transaction
overwrites the code record with the self-redeem error marker, a committed
state change.  The `redeemCode` variant in functions/index.js performs no
self-redeem check at all: a call by the code creator succeeds and returns
the code amount. -/
theorem self_dealing_behavior :
    (∀ (s : Store) (a : String) (q : ℚ), a ≠ "" → jsIsInteger q = true → 0 < q →
      giftBux s a (some a) (some q) =
        (.err "invalid-argument" "You cannot gift to yourself.", s)) ∧
    (∀ (s : Store) (uid : String) (input : Option String) (amt : ℚ),
      jsToUpper (jsTrim (input.getD "")) ≠ "" →
      s.giftCodes (jsToUpper (jsTrim (input.getD ""))) = some (.real amt uid) →
      redeemGiftCode s uid input =
        (.err "failed-precondition" "You cannot redeem your own code.",
          s.setGiftCode (jsToUpper (jsTrim (input.getD ""))) (some .errMarker))) ∧
    (∀ (s : Store) (uid code : String) (cd : RedemptionCode), code ≠ "" →
      s.redemptionCodes code = some cd → cd.createdBy = uid →
      (redeemCode s uid (some code)).1 = .ok cd.amount) := by
  refine ⟨?_, ?_, ?_⟩
  · intro s a q ha hint hq
    have hv : ¬ (¬ jsIsInteger q = true ∨ q ≤ 0) := by
      push_neg
      exact ⟨hint, hq⟩
    simp only [giftBux, if_neg ha, if_neg hv, if_pos rfl]
    simp
  · intro s uid input amt hne hcode
    simp only [redeemGiftCode, hcode, if_neg hne, if_pos rfl]
    simp
  · intro s uid code cd hne hcode hcreator
    simp only [redeemCode, hcode, if_neg hne]

/-- Witness for C5 (amended) at concrete inputs: a self-gift of 5 fails
with the self-gift error and no change; the creator redeeming through
`redeemGiftCode` gets the cannot-redeem-your-own-code error; the creator
redeeming through `redeemCode` gets a success with the code amount. -/
theorem self_dealing_behavior_witness :
    (giftBux initState "alice" (some "alice") (some 5) =
      (.err "invalid-argument" "You cannot gift to yourself.", initState)) ∧
    (redeemGiftCode (initState.setGiftCode "LBX-G" (some (.real 70 "carol"))) "carol"
        (some "LBX-G") =
      (.err "failed-precondition" "You cannot redeem your own code.",
        (initState.setGiftCode "LBX-G" (some (.real 70 "carol"))).setGiftCode "LBX-G"
          (some .errMarker))) ∧
    ((redeemCode (initState.setRedemptionCode "LBX-C" (some ⟨25, "dave", 3⟩)) "dave"
        (some "LBX-C")).1 = .ok 25) := by
  refine ⟨?_, ?_, ?_⟩
  · exact self_dealing_behavior.1 initState "alice" 5 (by decide) (by decide) (by norm_num)
  · have hK : jsToUpper (jsTrim ((some "LBX-G").getD "")) = "LBX-G" := by decide
    have h := self_dealing_behavior.2.1
      (initState.setGiftCode "LBX-G" (some (.real 70 "carol"))) "carol" (some "LBX-G") 70
      (by rw [hK]; decide) (by rw [hK]; simp)
    rw [hK] at h
    exact h
  · exact self_dealing_behavior.2.2
      (initState.setRedemptionCode "LBX-C" (some ⟨25, "dave", 3⟩)) "dave" "LBX-C"
      ⟨25, "dave", 3⟩ (by decide) (by simp) rfl

theorem debitBeforeCodeWrite_pair (u : String) (a : ℚ) (c : String) :
    debitBeforeCodeWrite [Ev.debit u a, Ev.codeWrite c] := by
  refine ⟨⟨0, by norm_num⟩, ⟨1, by norm_num⟩, by norm_num, rfl, rfl⟩

theorem not_debitBeforeCodeWrite_pair (c u : String) (a : ℚ) :
    ¬ debitBeforeCodeWrite [Ev.codeWrite c, Ev.debit u a] := by
  rintro ⟨i, j, hij, hdi, hdj⟩
  have hi := i.isLt
  have hj := j.isLt
  simp only [List.length_cons, List.length_nil] at hi hj
  interval_cases hi2 : i.val <;> interval_cases hj2 : j.val <;>
    simp_all [List.get, Ev.isDebit, Ev.isCodeWrite]

/-- Claim C6 is refuted at a concrete input: the `createGiftCode` variant
writes the `/gift_codes` record first and decrements the balance only
afterwards — in its committed-write trace the code write precedes the
debit, so the debit does not happen strictly before the code write. -/
theorem createGiftCode_code_write_precedes_debit :
    (createGiftCode (initState.setBalance "alice" 100) "alice" (some 40) "LBX-W").1 =
      .ok "LBX-W" ∧
    (createGiftCode (initState.setBalance "alice" 100) "alice" (some 40) "LBX-W").2.2 =
      [.codeWrite "LBX-W", .debit "alice" 40] ∧
    (createGiftCode (initState.setBalance "alice" 100) "alice" (some 40)
        "LBX-W").2.1.giftCodes "LBX-W" = some (.real 40 "alice") ∧
    (createGiftCode (initState.setBalance "alice" 100) "alice" (some 40)
        "LBX-W").2.1.balanceOf "alice" = some 60 ∧
    ¬ debitBeforeCodeWrite
      (createGiftCode (initState.setBalance "alice" 100) "alice" (some 40) "LBX-W").2.2 := by
  have hbal : (initState.setBalance "alice" 100).balanceOf "alice" = some 100 := by simp
  have hc : createGiftCode (initState.setBalance "alice" 100) "alice" (some 40) "LBX-W" =
      (.ok "LBX-W",
        ((initState.setBalance "alice" 100).setGiftCode "LBX-W"
          (some (.real 40 "alice"))).addBalance "alice" (-40),
        [.codeWrite "LBX-W", .debit "alice" 40]) := by
    have h40 : jsIsInteger (40:ℚ) = true := by decide
    simp only [createGiftCode, hbal]
    norm_num [h40]
  refine ⟨by rw [hc], by rw [hc], ?_, ?_, ?_⟩
  · rw [hc]
    simp
  · rw [hc]
    simp only [balanceOf_addBalance, if_pos rfl, balanceOf_setGiftCode, hbal,
      Option.getD_some]
    norm_num
  · rw [hc]
    exact not_debitBeforeCodeWrite_pair "LBX-W" "alice" 40

/-- Claim C6 (amended): the two issuing variants order the debit and the
code write differently.  `createRedemptionCode` debits through an atomic
transaction strictly before writing the code record, and when the balance
is absent or insufficient nothing is written and the store is unchanged.
`createGiftCode` checks the balance with a plain read, then writes the code
record first and decrements the balance only afterwards (code write before
debit); when the balance is absent or insufficient it too writes nothing. -/
theorem code_issue_order_by_variant (s : Store) (uid : String) (a : ℚ) (code : String)
    (ts : Nat) (cur : ℚ) (hint : jsIsInteger a = true) (hpos : 0 < a) :
    (s.balanceOf uid = some cur → ¬ cur < a →
      createRedemptionCode s uid (some a) code ts =
        (.ok code, (s.setBalance uid (cur - a)).setRedemptionCode code (some ⟨a, uid, ts⟩),
          [.debit uid a, .codeWrite code]) ∧
      debitBeforeCodeWrite [Ev.debit uid a, Ev.codeWrite code]) ∧
    (s.balanceOf uid = some cur → cur < a →
      createRedemptionCode s uid (some a) code ts =
        (.err "aborted" "Insufficient balance to create code.", s, [])) ∧
    (s.balanceOf uid = none →
      createRedemptionCode s uid (some a) code ts =
        (.err "aborted" "Insufficient balance to create code.", s, [])) ∧
    (s.balanceOf uid = some cur → ¬ cur < a →
      createGiftCode s uid (some a) code =
        (.ok code, (s.setGiftCode code (some (.real a uid))).addBalance uid (-a),
          [.codeWrite code, .debit uid a]) ∧
      ¬ debitBeforeCodeWrite [Ev.codeWrite code, Ev.debit uid a]) ∧
    (s.balanceOf uid = some cur → cur < a →
      createGiftCode s uid (some a) code =
        (.err "failed-precondition" "Insufficient balance.", s, [])) := by
  have hv : ¬ (¬ jsIsInteger a = true ∨ a ≤ 0) := by
    push_neg
    exact ⟨hint, hpos⟩
  refine ⟨?_, ?_, ?_, ?_, ?_⟩
  · intro hbal hge
    constructor
    · simp only [createRedemptionCode, if_neg hv, hbal, if_neg hge]
    · exact debitBeforeCodeWrite_pair uid a code
  · intro hbal hlt
    simp only [createRedemptionCode, if_neg hv, hbal, if_pos hlt]
  · intro hbal
    simp only [createRedemptionCode, if_neg hv, hbal]
  · intro hbal hge
    constructor
    · simp only [createGiftCode, if_neg hv, hbal, if_neg hge]
    · exact not_debitBeforeCodeWrite_pair code uid a
  · intro hbal hlt
    simp only [createGiftCode, if_neg hv, hbal, if_pos hlt]

/-- Witness for C6 (amended) at concrete inputs: with balance 100 and
amount 40 both variants succeed with their stated traces, and with balance
10 both reject leaving the store unchanged. -/
theorem code_issue_order_by_variant_witness :
    (createRedemptionCode (initState.setBalance "dave" 100) "dave" (some 40) "LBX-R" 7 =
      (.ok "LBX-R",
        ((initState.setBalance "dave" 100).setBalance "dave"
          (100 - 40)).setRedemptionCode "LBX-R" (some ⟨40, "dave", 7⟩),
        [.debit "dave" 40, .codeWrite "LBX-R"])) ∧
    (createGiftCode (initState.setBalance "dave" 100) "dave" (some 40) "LBX-R" =
      (.ok "LBX-R",
        ((initState.setBalance "dave" 100).setGiftCode "LBX-R"
          (some (.real 40 "dave"))).addBalance "dave" (-40),
        [.codeWrite "LBX-R", .debit "dave" 40])) ∧
    (createRedemptionCode (initState.setBalance "dave" 10) "dave" (some 40) "LBX-R" 7 =
      (.err "aborted" "Insufficient balance to create code.",
        initState.setBalance "dave" 10, [])) ∧
    (createGiftCode (initState.setBalance "dave" 10) "dave" (some 40) "LBX-R" =
      (.err "failed-precondition" "Insufficient balance.",
        initState.setBalance "dave" 10, [])) := by
  have h1 := code_issue_order_by_variant (initState.setBalance "dave" 100) "dave" 40
    "LBX-R" 7 100 (by decide) (by norm_num)
  have h2 := code_issue_order_by_variant (initState.setBalance "dave" 10) "dave" 40
    "LBX-R" 7 10 (by decide) (by norm_num)
  exact ⟨(h1.1 (by simp) (by norm_num)).1, (h1.2.2.2.1 (by simp) (by norm_num)).1,
    h2.2.1 (by simp) (by norm_num), h2.2.2.2.2 (by simp) (by norm_num)⟩

theorem spinGambleWheel_success (s : Store) (uid : String) (bet r cur : ℚ)
    (hint : jsIsInteger bet = true) (hpos : 0 < bet)
    (hbal : s.balanceOf uid = some cur) (hge : ¬ cur < bet) :
    spinGambleWheel s uid (some bet) r =
      (.ok (wheelIndex r),
        spinGambleWheelResolve (s.setBalance uid (cur - bet)) uid bet
          (wheelMultiplier r)) := by
  have hv : ¬ (¬ jsIsInteger bet = true ∨ bet ≤ 0) := by
    push_neg
    exact ⟨hint, hpos⟩
  simp only [spinGambleWheel, if_neg hv, spinGambleWheelDebit, hbal, if_neg hge]

theorem spinTheWheel_success (s : Store) (uid : String) (bet r cur : ℚ)
    (hint : jsIsInteger bet = true) (hpos : 0 < bet)
    (hbal : s.balanceOf uid = some cur) (hge : ¬ cur < bet) :
    spinTheWheel s uid (some bet) r =
      (.ok (spinTheWheelOutcome bet (wheelMultiplier r)),
        spinTheWheelResolve (s.addBalance uid (-bet)) uid cur bet
          (wheelMultiplier r)) := by
  have hv : ¬ (¬ jsIsInteger bet = true ∨ bet ≤ 0) := by
    push_neg
    exact ⟨hint, hpos⟩
  simp only [spinTheWheel, if_neg hv, spinTheWheelDebit, hbal, Option.getD_some, if_neg hge]

/-- Claim C7: both wheel variants define exactly 8 segments in the fixed
order x3, x0, x1.5, bankrupt, x2, x1/3, x1, x0; the drawn index
`Math.floor(Math.random() * 8)` lies in 0..7; a positive multiplier pays
exactly `Math.floor(bet * multiplier)` on top of the already-debited
balance, and a zero multiplier credits nothing. -/
theorem wheel_payout_exact (s : Store) (uid : String) (bet r cur : ℚ)
    (hr0 : 0 ≤ r) (hr1 : r < 1) (hint : jsIsInteger bet = true) (hpos : 0 < bet)
    (hbal : s.balanceOf uid = some cur) (hge : ¬ cur < bet) :
    wheelMultiplierList = [3, 0, 3/2, -1, 2, 1/3, 1, 0] ∧
    wheelMultiplierList.length = 8 ∧
    wheelIndex r < 8 ∧
    (spinGambleWheel s uid (some bet) r).1 = .ok (wheelIndex r) ∧
    (0 < wheelMultiplier r →
      (spinGambleWheel s uid (some bet) r).2.balanceOf uid =
        some ((cur - bet) + (⌊bet * wheelMultiplier r⌋ : ℤ))) ∧
    (wheelMultiplier r = 0 →
      (spinGambleWheel s uid (some bet) r).2.balanceOf uid = some (cur - bet)) ∧
    (0 < wheelMultiplier r →
      (spinTheWheel s uid (some bet) r).2.balanceOf uid =
        some ((cur - bet) + (⌊bet * wheelMultiplier r⌋ : ℤ))) := by
  have hsucc := spinGambleWheel_success s uid bet r cur hint hpos hbal hge
  have hsucc2 := spinTheWheel_success s uid bet r cur hint hpos hbal hge
  have hidx : wheelIndex r < 8 := by
    have h1 : (0:ℤ) ≤ ⌊r * 8⌋ := Int.floor_nonneg.mpr (by positivity)
    have h2 : ⌊r * 8⌋ < 8 := by
      apply Int.floor_lt.mpr
      push_cast
      linarith
    unfold wheelIndex
    omega
  refine ⟨rfl, rfl, hidx, by rw [hsucc], ?_, ?_, ?_⟩
  · intro hm
    have hne : wheelMultiplier r ≠ -1 := by
      intro h
      rw [h] at hm
      norm_num at hm
    rw [hsucc]
    show (spinGambleWheelResolve _ uid bet _).balanceOf uid = _
    unfold spinGambleWheelResolve
    rw [if_neg hne, if_pos hm, balanceOf_addBalance, if_pos rfl, balanceOf_setBalance,
      if_pos rfl, Option.getD_some]
  · intro hm
    rw [hsucc]
    show (spinGambleWheelResolve _ uid bet _).balanceOf uid = _
    unfold spinGambleWheelResolve
    rw [hm]
    norm_num
  · intro hm
    have hne : wheelMultiplier r ≠ -1 := by
      intro h
      rw [h] at hm
      norm_num at hm
    rw [hsucc2]
    show (spinTheWheelResolve _ uid cur bet _).balanceOf uid = _
    unfold spinTheWheelResolve spinTheWheelPayout
    rw [if_neg hne, balanceOf_addBalance, if_pos rfl, balanceOf_addBalance, if_pos rfl,
      hbal, Option.getD_some, Option.getD_some]
    congr 1
    ring

/-- Witness for C7 at a concrete input: with balance 100, bet 10 and draw
`r = 5/8` the winning index is 5, the multiplier is 1/3, and both variants
leave the balance at 90 + floor(10/3) = 93. -/
theorem wheel_payout_exact_witness :
    wheelMultiplier (5/8) = 1/3 ∧
    (spinGambleWheel (initState.setBalance "alice" 100) "alice" (some 10) (5/8)).1 =
      .ok 5 ∧
    (spinGambleWheel (initState.setBalance "alice" 100) "alice" (some 10)
        (5/8)).2.balanceOf "alice" = some 93 ∧
    (spinTheWheel (initState.setBalance "alice" 100) "alice" (some 10)
        (5/8)).2.balanceOf "alice" = some 93 := by
  have hidx5 : wheelIndex (5/8) = 5 := wheelIndex_eq _ 5 (by norm_num)
  have hm5 : wheelMultiplier (5/8) = 1/3 := by
    rw [wheelMultiplier_eq _ 5 hidx5]
    rfl
  have h := wheel_payout_exact (initState.setBalance "alice" 100) "alice" 10 (5/8) 100
    (by norm_num) (by norm_num) (by decide) (by norm_num) (by simp) (by norm_num)
  have hp1 := h.2.2.2.2.1 (by rw [hm5]; norm_num)
  have hp2 := h.2.2.2.2.2.2 (by rw [hm5]; norm_num)
  rw [hm5] at hp1 hp2
  norm_num at hp1 hp2
  refine ⟨hm5, ?_, hp1, hp2⟩
  rw [h.2.2.2.1, hidx5]

theorem giftBux_error_frame (s : Store) (sender : String) (recip : Option String)
    (amt : Option ℚ) (c m : String) (h : (giftBux s sender recip amt).1 = .err c m) :
    (giftBux s sender recip amt).2 = s := by
  rcases recip with _ | r
  · rfl
  by_cases hr : r = ""
  · simp [giftBux, hr]
  rcases amt with _ | a
  · simp [giftBux, hr]
  by_cases hv : ¬ jsIsInteger a = true ∨ a ≤ 0
  · simp only [giftBux, if_neg hr, if_pos hv]
  by_cases hself : sender = r
  · simp only [giftBux, if_neg hr, if_neg hv, if_pos hself]
  push_neg at hv
  cases hbal : s.balanceOf sender with
  | none => simp [giftBux, hr, hv.1, not_le.mpr hv.2, hself, hbal]
  | some cur =>
    by_cases hlt : cur < a
    · simp [giftBux, hr, hv.1, not_le.mpr hv.2, hself, hbal, hlt]
    · simp [giftBux, hr, hv.1, not_le.mpr hv.2, hself, hbal, hlt] at h

theorem createRedemptionCode_error_frame (s : Store) (uid : String) (amt : Option ℚ)
    (code : String) (ts : Nat) (c m : String)
    (h : (createRedemptionCode s uid amt code ts).1 = .err c m) :
    (createRedemptionCode s uid amt code ts).2.1 = s := by
  rcases amt with _ | a
  · rfl
  by_cases hv : ¬ jsIsInteger a = true ∨ a ≤ 0
  · simp only [createRedemptionCode, if_pos hv]
  push_neg at hv
  cases hbal : s.balanceOf uid with
  | none => simp [createRedemptionCode, hv.1, not_le.mpr hv.2, hbal]
  | some cur =>
    by_cases hlt : cur < a
    · simp [createRedemptionCode, hv.1, not_le.mpr hv.2, hbal, hlt]
    · simp [createRedemptionCode, hv.1, not_le.mpr hv.2, hbal, hlt] at h

theorem redeemCode_error_frame (s : Store) (uid : String) (ci : Option String)
    (c m : String) (h : (redeemCode s uid ci).1 = .err c m) :
    (redeemCode s uid ci).2 = s := by
  rcases ci with _ | code
  · rfl
  by_cases hc : code = ""
  · simp [redeemCode, hc]
  cases hcd : s.redemptionCodes code with
  | none => simp [redeemCode, hc, hcd]
  | some cd => simp [redeemCode, hc, hcd] at h

theorem createGiftCode_error_frame (s : Store) (uid : String) (amt : Option ℚ)
    (code : String) (c m : String)
    (h : (createGiftCode s uid amt code).1 = .err c m) :
    (createGiftCode s uid amt code).2.1 = s := by
  rcases amt with _ | a
  · rfl
  by_cases hv : ¬ jsIsInteger a = true ∨ a ≤ 0
  · simp only [createGiftCode, if_pos hv]
  push_neg at hv
  cases hbal : s.balanceOf uid with
  | none => simp [createGiftCode, hv.1, not_le.mpr hv.2, hbal]
  | some cur =>
    by_cases hlt : cur < a
    · simp [createGiftCode, hv.1, not_le.mpr hv.2, hbal, hlt]
    · simp [createGiftCode, hv.1, not_le.mpr hv.2, hbal, hlt] at h

theorem redeemGiftCode_invalid_frame (s : Store) (uid : String) (ci : Option String)
    (m : String) (h : (redeemGiftCode s uid ci).1 = .err "invalid-argument" m) :
    (redeemGiftCode s uid ci).2 = s := by
  by_cases hc : jsToUpper (jsTrim (ci.getD "")) = ""
  · simp [redeemGiftCode, hc]
  cases hcd : s.giftCodes (jsToUpper (jsTrim (ci.getD ""))) with
  | none => simp [redeemGiftCode, hc, hcd]
  | some v =>
    cases v with
    | real a cr =>
      by_cases hcr : cr = uid
      · simp [redeemGiftCode, hc, hcd, hcr] at h
      · simp [redeemGiftCode, hc, hcd, hcr] at h
    | errMarker => simp [redeemGiftCode, hc, hcd] at h

theorem spinGambleWheel_error_frame (s : Store) (uid : String) (bi : Option ℚ) (r : ℚ)
    (c m : String) (h : (spinGambleWheel s uid bi r).1 = .err c m) :
    (spinGambleWheel s uid bi r).2 = s := by
  rcases bi with _ | bet
  · rfl
  by_cases hv : ¬ jsIsInteger bet = true ∨ bet ≤ 0
  · simp only [spinGambleWheel, if_pos hv]
  push_neg at hv
  cases hbal : s.balanceOf uid with
  | none => simp [spinGambleWheel, spinGambleWheelDebit, hv.1, not_le.mpr hv.2, hbal]
  | some cur =>
    by_cases hlt : cur < bet
    · simp [spinGambleWheel, spinGambleWheelDebit, hv.1, not_le.mpr hv.2, hbal, hlt]
    · simp [spinGambleWheel, spinGambleWheelDebit, hv.1, not_le.mpr hv.2, hbal, hlt] at h

theorem spinTheWheel_error_frame (s : Store) (uid : String) (bi : Option ℚ) (r : ℚ)
    (c m : String) (h : (spinTheWheel s uid bi r).1 = .err c m) :
    (spinTheWheel s uid bi r).2 = s := by
  rcases bi with _ | bet
  · rfl
  by_cases hv : ¬ jsIsInteger bet = true ∨ bet ≤ 0
  · simp only [spinTheWheel, if_pos hv]
  push_neg at hv
  by_cases hlt : (s.balanceOf uid).getD 0 < bet
  · simp [spinTheWheel, spinTheWheelDebit, hv.1, not_le.mpr hv.2, hlt]
  · simp [spinTheWheel, spinTheWheelDebit, hv.1, not_le.mpr hv.2, hlt] at h

theorem playBlackjack_error_frame (s : Store) (uid : String) (act : Option String)
    (bi : Option ℚ) (c m : String) (h : (playBlackjack s uid act bi).1 = .err c m) :
    (playBlackjack s uid act bi).2 = s := by
  by_cases hact : act ≠ some "deal"
  · simp only [playBlackjack, if_pos hact]
  simp only [playBlackjack, if_neg hact] at h ⊢
  rcases bi with _ | bet
  · rfl
  by_cases hb : bet ≤ 0
  · simp [hb]
  cases hbal : s.balanceOf uid with
  | none => simp [hb, hbal]
  | some cur =>
    by_cases hlt : cur < bet
    · simp [hb, hbal, hlt]
    · simp [hb, hbal, hlt] at h

/-- Claim C4 is refuted at a concrete input: `playBlackjack` validates a
bet only with `isNaN(betAmount) || betAmount <= 0` — there is no
`Number.isInteger` check — so the non-integer bet 5/2 passes validation,
the call succeeds, and the balance is mutated from 100 to the fractional
value 195/2. -/
theorem playBlackjack_noninteger_bet_mutates :
    jsIsInteger (5/2 : ℚ) = false ∧
    (playBlackjack (initState.setBalance "alice" 100) "alice" (some "deal")
        (some (5/2))).1 = .ok initialGameState ∧
    (playBlackjack (initState.setBalance "alice" 100) "alice" (some "deal")
        (some (5/2))).2.balanceOf "alice" = some (195/2) ∧
    (playBlackjack (initState.setBalance "alice" 100) "alice" (some "deal")
        (some (5/2))).2.balanceOf "alice" ≠
      (initState.setBalance "alice" 100).balanceOf "alice" := by
  have hbal : (initState.setBalance "alice" 100).balanceOf "alice" = some 100 := by simp
  have hint : jsIsInteger (5/2 : ℚ) = false := by
    norm_num [jsIsInteger, Rat.den]
  have hres : playBlackjack (initState.setBalance "alice" 100) "alice" (some "deal")
      (some (5/2)) =
      (.ok initialGameState,
        (initState.setBalance "alice" 100).setBalance "alice" (100 - 5/2)) := by
    simp only [playBlackjack, hbal]
    norm_num
  refine ⟨hint, by rw [hres], ?_, ?_⟩
  · rw [hres]
    simp only [balanceOf_setBalance, if_pos rfl]
    norm_num
  · rw [hres, hbal]
    simp only [balanceOf_setBalance, if_pos rfl]
    norm_num

/-- Claim C4 (amended): every validation failure an operation detects is
returned before any mutation — a call whose result is the invalid-argument
error (indeed, any error for these handlers) leaves the store unchanged —
and a missing, non-positive or non-integer amount is rejected by `giftBux`,
`createRedemptionCode`, `createGiftCode`, `spinGambleWheel` and
`spinTheWheel`.  `playBlackjack`, however, checks only that the bet is a
positive number: it rejects non-positive bets but accepts non-integer ones
(which then debit the balance). -/
theorem validation_failures_before_mutation :
    (∀ (s : Store) (sender : String) (recip : Option String) (amt : Option ℚ) (c m : String),
      (giftBux s sender recip amt).1 = .err c m → (giftBux s sender recip amt).2 = s) ∧
    (∀ (s : Store) (uid : String) (amt : Option ℚ) (code : String) (ts : Nat) (c m : String),
      (createRedemptionCode s uid amt code ts).1 = .err c m →
        (createRedemptionCode s uid amt code ts).2.1 = s) ∧
    (∀ (s : Store) (uid : String) (ci : Option String) (c m : String),
      (redeemCode s uid ci).1 = .err c m → (redeemCode s uid ci).2 = s) ∧
    (∀ (s : Store) (uid : String) (amt : Option ℚ) (code : String) (c m : String),
      (createGiftCode s uid amt code).1 = .err c m → (createGiftCode s uid amt code).2.1 = s) ∧
    (∀ (s : Store) (uid : String) (ci : Option String) (m : String),
      (redeemGiftCode s uid ci).1 = .err "invalid-argument" m →
        (redeemGiftCode s uid ci).2 = s) ∧
    (∀ (s : Store) (uid : String) (bi : Option ℚ) (r : ℚ) (c m : String),
      (spinGambleWheel s uid bi r).1 = .err c m → (spinGambleWheel s uid bi r).2 = s) ∧
    (∀ (s : Store) (uid : String) (bi : Option ℚ) (r : ℚ) (c m : String),
      (spinTheWheel s uid bi r).1 = .err c m → (spinTheWheel s uid bi r).2 = s) ∧
    (∀ (s : Store) (uid : String) (act : Option String) (bi : Option ℚ) (c m : String),
      (playBlackjack s uid act bi).1 = .err c m → (playBlackjack s uid act bi).2 = s) ∧
    (∀ (s : Store) (sender r : String) (q : ℚ), r ≠ "" →
      (¬ jsIsInteger q = true ∨ q ≤ 0) →
      giftBux s sender (some r) (some q) =
        (.err "invalid-argument" "Invalid gift amount.", s)) ∧
    (∀ (s : Store) (uid : String) (q : ℚ) (code : String) (ts : Nat),
      (¬ jsIsInteger q = true ∨ q ≤ 0) →
      createRedemptionCode s uid (some q) code ts =
        (.err "invalid-argument" "Invalid code amount.", s, [])) ∧
    (∀ (s : Store) (uid : String) (q : ℚ) (code : String),
      (¬ jsIsInteger q = true ∨ q ≤ 0) →
      createGiftCode s uid (some q) code =
        (.err "invalid-argument" "A valid amount is required.", s, [])) ∧
    (∀ (s : Store) (uid : String) (q r : ℚ), (¬ jsIsInteger q = true ∨ q ≤ 0) →
      spinGambleWheel s uid (some q) r = (.err "invalid-argument" "Invalid bet amount.", s)) ∧
    (∀ (s : Store) (uid : String) (q r : ℚ), (¬ jsIsInteger q = true ∨ q ≤ 0) →
      spinTheWheel s uid (some q) r = (.err "invalid-argument" "Invalid bet amount.", s)) ∧
    (∀ (s : Store) (uid : String) (q : ℚ), q ≤ 0 →
      playBlackjack s uid (some "deal") (some q) =
        (.err "invalid-argument" "A valid bet is required to deal.", s)) := by
  refine ⟨giftBux_error_frame, createRedemptionCode_error_frame, redeemCode_error_frame,
    createGiftCode_error_frame, redeemGiftCode_invalid_frame, spinGambleWheel_error_frame,
    spinTheWheel_error_frame, playBlackjack_error_frame, ?_, ?_, ?_, ?_, ?_, ?_⟩
  · intro s sender r q hr hq
    simp only [giftBux, if_neg hr, if_pos hq]
  · intro s uid q code ts hq
    simp only [createRedemptionCode, if_pos hq]
  · intro s uid q code hq
    simp only [createGiftCode, if_pos hq]
  · intro s uid q r hq
    simp only [spinGambleWheel, if_pos hq]
  · intro s uid q r hq
    simp only [spinTheWheel, if_pos hq]
  · intro s uid q hq
    have hact : ¬ ((some "deal" : Option String) ≠ some "deal") := by simp
    simp only [playBlackjack, if_neg hact, if_pos hq]

/-- Witness for C4 (amended) at concrete inputs: a failed gift leaves the
store unchanged, a non-integer gift amount is rejected as invalid-argument,
and a non-positive blackjack bet is rejected as invalid-argument. -/
theorem validation_failures_before_mutation_witness :
    ((giftBux initState "alice" (some "bob") (some 5)).2 = initState) ∧
    (giftBux initState "alice" (some "bob") (some (7/2)) =
      (.err "invalid-argument" "Invalid gift amount.", initState)) ∧
    (playBlackjack initState "alice" (some "deal") (some (-3)) =
      (.err "invalid-argument" "A valid bet is required to deal.", initState)) := by
  have hfrac : ¬ jsIsInteger ((7:ℚ)/2) = true ∨ ((7:ℚ)/2) ≤ 0 := by
    left
    norm_num [jsIsInteger, Rat.den]
  refine ⟨?_, ?_, ?_⟩
  · exact validation_failures_before_mutation.1 initState "alice" (some "bob") (some 5)
      "aborted" "Insufficient funds to send gift."
      (by simp [giftBux, initState, Store.balanceOf, UserNode.absent,
        (by decide : jsIsInteger (5:ℚ) = true), (by norm_num : ¬ ((5:ℚ) ≤ 0))])
  · exact validation_failures_before_mutation.2.2.2.2.2.2.2.2.1 initState "alice" "bob" (7/2)
      (by decide) hfrac
  · exact validation_failures_before_mutation.2.2.2.2.2.2.2.2.2.2.2.2.2 initState "alice"
      (-3) (by norm_num)

/-- Claim C1, evaluated at the failing interleaving: `redeemCode` performs
the snapshot read of the code record, the balance-credit transaction and
the code removal as three separate atomic store operations, with nothing
serialising the sequence (the source comment calls the update-and-remove
pair atomic, but it is not one unit).  Scheduling two concurrent
`redeemCode` calls on the same 50-BUX code so that both reads happen before
either removal makes both calls succeed: bob and carol are each credited
50 from the single code, which is deleted afterwards. -/
theorem redeemCode_concurrent_double_success :
    (raceRun "bob" "carol" "LBX-R2"
        ⟨initState.setRedemptionCode "LBX-R2" (some ⟨50, "alice", 1⟩), .start, .start⟩
        [true, false, true, true, false, false]).caller1 = .done (.ok 50) ∧
    (raceRun "bob" "carol" "LBX-R2"
        ⟨initState.setRedemptionCode "LBX-R2" (some ⟨50, "alice", 1⟩), .start, .start⟩
        [true, false, true, true, false, false]).caller2 = .done (.ok 50) ∧
    (raceRun "bob" "carol" "LBX-R2"
        ⟨initState.setRedemptionCode "LBX-R2" (some ⟨50, "alice", 1⟩), .start, .start⟩
        [true, false, true, true, false, false]).store.balanceOf "bob" = some 50 ∧
    (raceRun "bob" "carol" "LBX-R2"
        ⟨initState.setRedemptionCode "LBX-R2" (some ⟨50, "alice", 1⟩), .start, .start⟩
        [true, false, true, true, false, false]).store.balanceOf "carol" = some 50 ∧
    (raceRun "bob" "carol" "LBX-R2"
        ⟨initState.setRedemptionCode "LBX-R2" (some ⟨50, "alice", 1⟩), .start, .start⟩
        [true, false, true, true, false, false]).store.redemptionCodes "LBX-R2"
      = none := by
  refine ⟨?_, ?_, ?_, ?_, ?_⟩ <;>
    simp [raceRun, raceStep, redeemCodeStep, initState, Store.addBalance, Store.balanceOf,
      Store.setBalance, Store.setRedemptionCode, UserNode.absent]

theorem storeInv_initState : StoreInv initState := by
  refine ⟨fun u b h => ?_, fun c cd h => ?_, fun c a cr h => ?_⟩ <;>
    simp [initState, Store.balanceOf, UserNode.absent] at h

theorem storeInv_foldl (ops : List Op) :
    ∀ s : Store, (∀ op ∈ ops, OpIntOk op) → StoreInv s →
      StoreInv (ops.foldl applyOp s) := by
  induction ops with
  | nil =>
    intro s _ hs
    simpa using hs
  | cons op rest ih =>
    intro s hops hs
    rw [List.foldl_cons]
    exact ih _ (fun o ho => hops o (List.mem_cons_of_mem _ ho))
      (storeInv_applyOp s op (hops op (List.mem_cons_self _ _)) hs)

/-- Claim C3 (amended): for every sequence of requests executed
sequentially (each request runs to completion before the next starts), if
the starting store satisfies the balance invariant and every accepted
blackjack bet is an integer, then at every observed state — after any
prefix of the sequence — every committed balance and stored code amount is
a non-negative integer.  The integrality proviso is forced because
`playBlackjack` does not reject non-integer bets; the sequential proviso is
forced because `spinTheWheel` and `createGiftCode` debit with a
non-transactional check-then-increment that can race. -/
theorem sequential_balances_nonneg_integer (ops : List Op) (s : Store)
    (hops : ∀ op ∈ ops, OpIntOk op) (hs : StoreInv s) (n : ℕ) :
    StoreInv ((ops.take n).foldl applyOp s) :=
  storeInv_foldl (ops.take n) s (fun op ho => hops op (List.take_subset n ops ho)) hs

/-- Witness for C3 (amended) at a concrete input: a setup followed by an
integer-bet gift preserves the invariant from the empty store. -/
theorem sequential_balances_nonneg_integer_witness :
    StoreInv ((([.setup "alice" none 0,
        .gift "alice" (some "bob") (some 30)] : List Op).take 2).foldl applyOp
      initState) := by
  refine sequential_balances_nonneg_integer _ initState ?_ storeInv_initState 2
  intro op ho
  fin_cases ho <;> trivial

/-- Claim C3 is refuted at a concrete input: starting from the empty store,
a profile setup (balance 100) followed by an accepted `playBlackjack` deal
with the non-integer bet 5/2 commits the fractional balance 195/2 — a
committed account balance that is not an integer. -/
theorem fractional_balance_reachable :
    (([.setup "alice" none 0,
        .blackjackDeal "alice" (some "deal") (some (5/2))] : List Op).foldl applyOp
      initState).balanceOf "alice" = some (195/2) ∧
    ¬ GoodAmount (195/2 : ℚ) ∧
    StoreInv initState := by
  have hb1 : (newUserSetup initState "alice" none 0).2.balanceOf "alice" = some 100 := by
    norm_num [newUserSetup, initState, UserNode.isPresent, UserNode.absent,
      Store.setUserNode, Store.balanceOf, INITIAL_BALANCE]
  have hres : playBlackjack (newUserSetup initState "alice" none 0).2 "alice"
      (some "deal") (some (5/2)) =
      (.ok initialGameState,
        (newUserSetup initState "alice" none 0).2.setBalance "alice" (100 - 5/2)) := by
    simp only [playBlackjack, hb1]
    norm_num
  refine ⟨?_, ?_, storeInv_initState⟩
  · show (applyOp (applyOp initState (.setup "alice" none 0))
      (.blackjackDeal "alice" (some "deal") (some (5/2)))).balanceOf "alice" = some (195/2)
    show (playBlackjack (newUserSetup initState "alice" none 0).2 "alice"
      (some "deal") (some (5/2))).2.balanceOf "alice" = some (195/2)
    rw [hres]
    simp only [balanceOf_setBalance, if_pos rfl]
    norm_num
  · rintro ⟨-, hden⟩
    norm_num [Rat.den] at hden

end LinusBUX
